import Mathlib

/-!
A shallow embedding of `services/surfaceflinger/FrontEnd/LayerSnapshotBuilder.cpp`
(the scene-graph flattening engine of the display compositor), together with
theorems checking the natural-language specification against it.

Machine floats of the source are modelled by exact fractions (the type `Q`
below); 32-bit machine integers by `ℤ` with explicit range checks where the
source checks overflow.
Types and helpers of this repository that are not part of the embedded file
(ui::Transform, Rect, FloatRect, Region, LayerSnapshot accessors,
LayerHierarchy) are modelled from the spec and carry a doc comment saying so.
-/

namespace LSB

/-- Machine floats of the source, modelled as exact fractions: an integer
numerator over a positive integer denominator.  The representation is not
normalised (no gcd), so every arithmetic operation reduces inside the
kernel; value comparison is the cross-multiplication test `beq`, never the
structural equality of representations. -/
structure Q where
  num : ℤ
  den : ℤ
deriving DecidableEq, Repr

namespace Q

/-- Embed an integer. -/
def ofInt (n : ℤ) : Q := ⟨n, 1⟩

instance (n : ℕ) : OfNat Q n := ⟨ofInt n⟩

def neg (a : Q) : Q := ⟨-a.num, a.den⟩

instance : Neg Q := ⟨neg⟩

def add (a b : Q) : Q := ⟨a.num * b.den + b.num * a.den, a.den * b.den⟩

instance : Add Q := ⟨add⟩

def sub (a b : Q) : Q := a.add b.neg

instance : Sub Q := ⟨sub⟩

def mul (a b : Q) : Q := ⟨a.num * b.num, a.den * b.den⟩

instance : Mul Q := ⟨mul⟩

/-- Total division: zero when the divisor is zero (validity checks in the
embedded code guard the uses), with the sign normalised into the
numerator. -/
def div (a b : Q) : Q :=
  let n := a.num * b.den
  let d := a.den * b.num
  if d = 0 then ⟨0, 1⟩ else if d < 0 then ⟨-n, -d⟩ else ⟨n, d⟩

instance : Div Q := ⟨div⟩

/-- Value comparison `a ≤ b` (valid for positive denominators). -/
def ble (a b : Q) : Bool := a.num * b.den ≤ b.num * a.den

/-- Value comparison `a < b` (valid for positive denominators). -/
def blt (a b : Q) : Bool := a.num * b.den < b.num * a.den

/-- Value equality (cross multiplication; valid for positive
denominators). -/
def beq (a b : Q) : Bool := a.num * b.den = b.num * a.den

def minQ (a b : Q) : Q := if a.ble b then a else b

def maxQ (a b : Q) : Q := if a.ble b then b else a

instance : Min Q := ⟨minQ⟩

instance : Max Q := ⟨maxQ⟩

/-- Floor (valid for positive denominators). -/
def floor (a : Q) : ℤ := Int.fdiv a.num a.den

/-- Ceiling (valid for positive denominators). -/
def ceil (a : Q) : ℤ := -(Int.fdiv (-a.num) a.den)

end Q

/-- Modelled from the spec: a 2-D affine transform (ui::Transform of this
repository, absent from the embedded sources).  It maps `(x, y)` to
`(a·x + b·y + tx, c·x + d·y + ty)`. -/
structure Transform where
  a : Q
  b : Q
  c : Q
  d : Q
  tx : Q
  ty : Q
deriving DecidableEq, Repr

namespace Transform

/-- The identity transform (`ui::Transform::reset`). -/
def ident : Transform := ⟨1, 0, 0, 1, 0, 0⟩

/-- Composition `t.comp s` applies `s` first, then `t` — the source's `t * s`. -/
def comp (t s : Transform) : Transform :=
  { a := t.a * s.a + t.b * s.c
    b := t.a * s.b + t.b * s.d
    c := t.c * s.a + t.d * s.c
    d := t.c * s.b + t.d * s.d
    tx := t.a * s.tx + t.b * s.ty + t.tx
    ty := t.c * s.tx + t.d * s.ty + t.ty }

/-- Determinant of the linear part. -/
def det (t : Transform) : Q := t.a * t.d - t.b * t.c

/-- Modelled from the spec: `ui::Transform::inverse`.  Over exact fractions
a singular matrix has no non-finite values to produce; division by a zero
determinant yields zero entries (total division). -/
def inverse (t : Transform) : Transform :=
  let idet := 1 / t.det
  { a := t.d * idet
    b := -t.b * idet
    c := -t.c * idet
    d := t.a * idet
    tx := -(t.d * idet * t.tx + (-t.b * idet) * t.ty)
    ty := -((-t.c * idet) * t.tx + t.a * idet * t.ty) }

/-- Apply the transform to a point. -/
def apply (t : Transform) (p : Q × Q) : Q × Q :=
  (t.a * p.1 + t.b * p.2 + t.tx, t.c * p.1 + t.d * p.2 + t.ty)

/-- `ui::Transform::set(tx, ty)`: replace the translation component. -/
def setTranslate (t : Transform) (x y : Q) : Transform :=
  { t with tx := x, ty := y }

/-- A translation-only transform (default-constructed `ui::Transform` with
`set(x, y)` applied, as in `fillInputFrameInfo`). -/
def translate (x y : Q) : Transform := ⟨1, 0, 0, 1, x, y⟩

/-- `ui::Transform::getScaleX` — the `a` entry of the linear part. -/
def getScaleX (t : Transform) : Q := t.a

/-- `ui::Transform::getScaleY` — the `d` entry of the linear part. -/
def getScaleY (t : Transform) : Q := t.d

/-- `ui::Transform::getType() == IDENTITY` test used by `getInputBounds`
(value comparison of the entries). -/
def isIdentity (t : Transform) : Bool :=
  t.a.beq 1 && t.b.beq 0 && t.c.beq 0 && t.d.beq 1 && t.tx.beq 0 && t.ty.beq 0

end Transform

/-- Modelled from the spec: an integer rectangle (`Rect` of this repository,
absent from the embedded sources). -/
structure IRect where
  left : ℤ
  top : ℤ
  right : ℤ
  bottom : ℤ
deriving DecidableEq, Repr

/-- Modelled from the spec: a rational rectangle (`FloatRect`). -/
structure FRect where
  left : Q
  top : Q
  right : Q
  bottom : Q
deriving DecidableEq, Repr

namespace IRect

/-- `Rect::EMPTY_RECT`. -/
def emptyRect : IRect := ⟨0, 0, 0, 0⟩

def width (r : IRect) : ℤ := r.right - r.left

def height (r : IRect) : ℤ := r.bottom - r.top

/-- Modelled from the spec: `Rect::isValid` — non-negative width and height. -/
def isValid (r : IRect) : Bool := 0 ≤ r.width ∧ 0 ≤ r.height

/-- Modelled from the spec: `Rect::isEmpty` — zero-area (or inverted) rect. -/
def isEmpty (r : IRect) : Bool := r.width ≤ 0 ∨ r.height ≤ 0

def toFRect (r : IRect) : FRect :=
  ⟨Q.ofInt r.left, Q.ofInt r.top, Q.ofInt r.right, Q.ofInt r.bottom⟩

/-- Rect-by-rect intersection (used for `Region::intersect` with a rect). -/
def intersectR (r s : IRect) : IRect :=
  ⟨max r.left s.left, max r.top s.top, min r.right s.right, min r.bottom s.bottom⟩

end IRect

namespace FRect

def width (r : FRect) : Q := r.right - r.left

def height (r : FRect) : Q := r.bottom - r.top

/-- Modelled from the spec: `FloatRect::isEmpty` — not strictly positive area. -/
def isEmpty (r : FRect) : Bool := !(r.left.blt r.right && r.top.blt r.bottom)

/-- Modelled from the spec: `FloatRect::intersect` — corner-wise max/min,
collapsing to the zero rect when the result would be inverted. -/
def intersect (r s : FRect) : FRect :=
  let i : FRect := ⟨max r.left s.left, max r.top s.top,
                    min r.right s.right, min r.bottom s.bottom⟩
  if i.width.blt 0 || i.height.blt 0 then ⟨0, 0, 0, 0⟩ else i

end FRect

/-- Truncation toward zero, the semantics of `static_cast<int32_t>` on a
non-negative-or-negative rational magnitude. -/
def truncQ (q : Q) : ℤ := if Q.ble 0 q then q.floor else q.ceil

/-- Rounding used by `ui::Transform` when producing integer rectangles:
add one half, then truncate toward zero (the strategy the source's comment in
`transformTouchableRegionSafely` refers to). -/
def roundHalf (q : Q) : ℤ := truncQ (q + 1/2)

/-- Modelled from the spec: conversion `Rect{FloatRect}` — each coordinate
truncated toward zero. -/
def FRect.toIRect (r : FRect) : IRect :=
  ⟨truncQ r.left, truncQ r.top, truncQ r.right, truncQ r.bottom⟩

namespace Transform

/-- Modelled from the spec: `ui::Transform::transform(FloatRect)` — transform
the four corners and take their bounding box. -/
def transformFR (t : Transform) (r : FRect) : FRect :=
  let p1 := t.apply (r.left, r.top)
  let p2 := t.apply (r.right, r.top)
  let p3 := t.apply (r.left, r.bottom)
  let p4 := t.apply (r.right, r.bottom)
  { left := min (min p1.1 p2.1) (min p3.1 p4.1)
    top := min (min p1.2 p2.2) (min p3.2 p4.2)
    right := max (max p1.1 p2.1) (max p3.1 p4.1)
    bottom := max (max p1.2 p2.2) (max p3.2 p4.2) }

/-- Modelled from the spec: `ui::Transform::transform(Rect)` — transform the
corner bounding box and round each coordinate. -/
def transformRect (t : Transform) (r : IRect) : IRect :=
  let f := t.transformFR r.toFRect
  ⟨roundHalf f.left, roundHalf f.top, roundHalf f.right, roundHalf f.bottom⟩

end Transform

/-- Modelled from the spec: a `Region` is kept as a list of rectangles; the
union `orSelf` appends (normalisation of overlapping rects is not modelled —
the claims only quantify over which rectangles are kept). -/
abbrev Region := List IRect

namespace Region

def empty : Region := ([] : List IRect)

/-- `Region(Rect)` constructor. -/
def ofRect (r : IRect) : Region := [r]

/-- `Region::orSelf(Rect)` modelled as appending the rectangle. -/
def orSelf (reg : Region) (r : IRect) : Region := List.append reg [r]

/-- Modelled from the spec: `ui::Transform::transform(Region)` — per-rect
transformation. -/
def transformBy (t : Transform) (reg : Region) : Region :=
  List.map (fun r => t.transformRect r) reg

/-- Modelled from the spec: `Region::intersect(Rect)` — clip every rectangle,
keeping the non-empty results. -/
def intersectRect (reg : Region) (r : IRect) : Region :=
  List.filter (fun x => ¬ x.isEmpty) (List.map (fun x => x.intersectR r) reg)

end Region

/-- The per-descriptor change bitmask `RequestedLayerState::Changes`
(the flags this file tests). -/
structure Changes where
  hierarchy : Bool
  geometry : Bool
  visibility : Bool
  metadata : Bool
  affectsChildren : Bool
  content : Bool
  input : Bool
  created : Bool
deriving DecidableEq, Repr

namespace Changes

def none : Changes := ⟨false, false, false, false, false, false, false, false⟩

/-- The summary that is exactly `Changes::Content`. -/
def contentOnly : Changes := ⟨false, false, false, false, false, true, false, false⟩

/-- Bitwise union (`|`). -/
def or (x y : Changes) : Changes :=
  ⟨x.hierarchy || y.hierarchy, x.geometry || y.geometry,
   x.visibility || y.visibility, x.metadata || y.metadata,
   x.affectsChildren || y.affectsChildren, x.content || y.content,
   x.input || y.input, x.created || y.created⟩

/-- Bitwise intersection (`&`). -/
def and (x y : Changes) : Changes :=
  ⟨x.hierarchy && y.hierarchy, x.geometry && y.geometry,
   x.visibility && y.visibility, x.metadata && y.metadata,
   x.affectsChildren && y.affectsChildren, x.content && y.content,
   x.input && y.input, x.created && y.created⟩

/-- `ftl::Flags::any(mask)` — some flag of the mask is set. -/
def anyOf (x mask : Changes) : Bool := x.and mask ≠ none

/-- `ftl::Flags::get() == 0`. -/
def isEmpty (x : Changes) : Bool := x = none

/-- The mask of parent flags that propagate to children in
`LayerSnapshotBuilder::updateSnapshot`. -/
def propagateMask : Changes := ⟨true, true, true, true, true, false, false, false⟩

/-- Mask `Visibility | Created` used for the per-node force-update test. -/
def visCreatedMask : Changes := ⟨false, false, true, false, false, false, false, true⟩

/-- Mask `Visibility | Hierarchy` used by the pruning tests. -/
def visHierMask : Changes := ⟨true, false, true, false, false, false, false, false⟩

/-- Mask `Hierarchy | Geometry` gating the geometry pass. -/
def hierGeomMask : Changes := ⟨true, true, false, false, false, false, false, false⟩

/-- Mask `Hierarchy | Geometry | Input` gating the input pass. -/
def hierGeomInputMask : Changes := ⟨true, true, false, false, false, false, true, false⟩

/-- Mask consisting of exactly `AffectsChildren`. -/
def affectsChildrenMask : Changes := ⟨false, false, false, false, true, false, false, false⟩

/-- Mask `AffectsChildren | Geometry` stamped on the root when displays
changed. -/
def affectsGeomMask : Changes := ⟨false, true, false, false, true, false, false, false⟩

end Changes

/-- `gui::DropInputMode`. -/
inductive DropInputMode where
  | nonE : DropInputMode
  | obscured : DropInputMode
  | all : DropInputMode
deriving DecidableEq, Repr

/-- `Hwc2::IComposerClient::BlendMode` values used here. -/
inductive BlendMode where
  | nonE : BlendMode
  | premultiplied : BlendMode
  | coverage : BlendMode
deriving DecidableEq, Repr

/-- `LayerHierarchy::Variant`. -/
inductive Variant where
  | attached : Variant
  | relative : Variant
  | mirror : Variant
deriving DecidableEq, Repr

/-- Modelled from the spec: `LayerHierarchy::TraversalPath` — one occurrence
of a descriptor in the tree: leaf id (`none` models `UNASSIGNED_LAYER_ID`),
the variant of the last edge, and the mirror-root and relative-root chains
crossed on the way down. -/
structure TraversalPath where
  id : Option ℕ
  variant : Variant
  mirrorRootIds : List ℕ
  relativeRootIds : List ℕ
deriving DecidableEq, Repr

namespace TraversalPath

/-- `LayerHierarchy::TraversalPath::ROOT`. -/
def root : TraversalPath := ⟨none, Variant.attached, [], []⟩

/-- Modelled from the spec: a path denotes a relative occurrence when a
relative edge was crossed. -/
def isRelative (p : TraversalPath) : Bool := p.relativeRootIds ≠ []

def isAttached (p : TraversalPath) : Bool := p.variant = Variant.attached

/-- Modelled from the spec: a clone occurrence crossed a mirror root. -/
def isClone (p : TraversalPath) : Bool := p.mirrorRootIds ≠ []

/-- Modelled from the spec: `ScopedAddToTraversalPath` — push the child id and
edge variant (recording mirror and relative roots crossed). -/
def extend (p : TraversalPath) (cid : ℕ) (v : Variant) : TraversalPath :=
  { id := some cid
    variant := v
    mirrorRootIds := if v = Variant.mirror then p.mirrorRootIds ++ [cid] else p.mirrorRootIds
    relativeRootIds := if v = Variant.relative then p.relativeRootIds ++ [cid]
                       else p.relativeRootIds }

/-- Modelled from the spec: the key equality of the snapshot index — leaf id
plus mirror-root chain (two snapshots with the same descriptor id but
different mirror chains are distinct entities). -/
def sameKey (p q : TraversalPath) : Bool :=
  p.id = q.id ∧ p.mirrorRootIds = q.mirrorRootIds

end TraversalPath

/-- Stretch effect as consumed here: only `hasEffect` is inspected; the
payload is kept abstract. -/
structure StretchEffect where
  hasEffect : Bool
  payload : ℕ
deriving DecidableEq, Repr

/-- Buffer metadata (`bufferData`) as consumed here. -/
structure BufferData where
  acquireFence : ℕ
  frameNumber : ℕ
  pixelFormat : ℕ
deriving DecidableEq, Repr

/-- External texture as consumed here: `getBuffer` handle and whether the
usage bits include `GRALLOC_USAGE_PROTECTED`. -/
structure ExternalTexture where
  buffer : ℕ
  usageProtected : Bool
deriving DecidableEq, Repr

/-- `ui::Size` as consumed by `getBufferNeedsFiltering`. -/
structure USize where
  width : ℤ
  height : ℤ
deriving DecidableEq, Repr

/-- `ui::Dataspace::BT2020_ITU_PQ` modelled as an opaque constant. -/
def dataspaceBT2020ItuPq : ℕ := 1

/-- `NATIVE_WINDOW_API_MEDIA` modelled as an opaque constant. -/
def nativeWindowApiMedia : ℕ := 2

/-- `HAL_PIXEL_FORMAT_RGBA_1010102` modelled as an opaque constant. -/
def halPixelFormatRgba1010102 : ℕ := 3

/-- `Fence::NO_FENCE` modelled as the zero handle. -/
def noFence : ℕ := 0

/-- `ui::DEFAULT_LAYER_STACK`. -/
def defaultLayerStack : ℕ := 0

/-- The layer descriptor `RequestedLayerState` as consumed by the embedded
file.  Pure accessors of the descriptor (`getTransform`, `getBufferSize`,
`getCroppedBufferSize`, …, which live outside the embedded sources) are
modelled as data of the descriptor itself. -/
structure RequestedLayerState where
  id : ℕ
  changes : Changes
  /-- `requested.what & layer_state_t::CONTENT_DIRTY`. -/
  whatContentDirty : Bool
  /-- `requested.what & layer_state_t::BUFFER_CHANGES`. -/
  whatBufferChanges : Bool
  /-- `requested.isHiddenByPolicy()`. -/
  hiddenByPolicy : Bool
  colorA : Q
  /-- `requested.getColor().rgb`, kept abstract. -/
  colorRgb : ℕ
  /-- `requested.flags & layer_state_t::eLayerSecure`. -/
  flagSecure : Bool
  /-- `requested.flags & layer_state_t::eLayerSkipScreenshot`. -/
  flagSkipScreenshot : Bool
  /-- `requested.flags & layer_state_t::eLayerOpaque`. -/
  flagOpaque : Bool
  isTrustedOverlay : Bool
  /-- `none` models `UNASSIGNED_LAYER_ID`. -/
  parentId : Option ℕ
  layerStack : ℕ
  stretchEffect : StretchEffect
  /-- Colour transform kept as an abstract composable token list. -/
  colorTransform : List ℕ
  hasColorTransform : Bool
  /-- `requested.getCompositionType()`, kept abstract. -/
  compositionType : ℕ
  dimmingEnabled : Bool
  premultipliedAlpha : Bool
  bufferData : Option BufferData
  externalTexture : Option ExternalTexture
  /-- `requested.getBufferSize(displayRotationFlags)`. -/
  getBufferSize : ℕ → IRect
  /-- `requested.getCroppedBufferSize(bufferSize)`. -/
  getCroppedBufferSize : IRect → IRect
  /-- `requested.getUnrotatedBufferSize(displayRotationFlags)`. -/
  getUnrotatedBufferSize : ℕ → USize
  dataspace : ℕ
  api : ℕ
  sidebandStream : Bool
  bufferTransform : ℕ
  transformToDisplayInverse : Bool
  /-- `requested.getBufferCrop()`. -/
  bufferCrop : IRect
  surfaceDamageRegion : Region
  transparentRegion : Region
  blurRegions : List ℕ
  backgroundBlurRadius : ℕ
  hdrMetadata : ℕ
  colorSpaceAgnostic : Bool
  crop : IRect
  /-- `requested.getTransform(displayRotationFlags)`. -/
  getTransform : ℕ → Transform
  cornerRadius : Q
  shadowRadius : Q
  metadata : List (ℕ × ℕ)
  /-- `none` models `UNASSIGNED_LAYER_ID`. -/
  touchCropId : Option ℕ
  /-- `requested.hasInputInfo()`. -/
  hasInputInfo : Bool
  dropInputMode : DropInputMode

/-- Rounded-corner state: crop rectangle and per-axis corner radius. -/
structure RoundedCornerState where
  cropRect : FRect
  radiusX : Q
  radiusY : Q
deriving DecidableEq, Repr

namespace RoundedCornerState

/-- Default state: no rounded corners. -/
def default : RoundedCornerState := ⟨⟨0, 0, 0, 0⟩, 0, 0⟩

/-- Modelled from the spec: `hasRoundedCorners` — strictly positive radius on
both axes. -/
def hasRoundedCorners (s : RoundedCornerState) : Bool :=
  Q.blt 0 s.radiusX && Q.blt 0 s.radiusY

end RoundedCornerState

/-- `renderengine::ShadowSettings` as consumed here; colours are modelled as
scalar intensities (they are only ever scaled by the resolved alpha). -/
structure ShadowSettings where
  length : Q
  boundaries : FRect
  casterIsTranslucent : Bool
  ambientColor : Q
  spotColor : Q
deriving DecidableEq, Repr

def ShadowSettings.default : ShadowSettings := ⟨0, ⟨0, 0, 0, 0⟩, false, 0, 0⟩

/-- The `gui::WindowInfo::InputConfig` flags this file touches. -/
structure InputConfig where
  noInputChannel : Bool
  notTouchable : Bool
  notVisible : Bool
  dropInput : Bool
  dropInputIfObscured : Bool
  trustedOverlay : Bool
  clone : Bool
deriving DecidableEq, Repr

def InputConfig.default : InputConfig := ⟨false, false, false, false, false, false, false⟩

/-- `InputConfig` consisting of exactly the `NO_INPUT_CHANNEL` flag (the
assignment `inputConfig = InputConfig::NO_INPUT_CHANNEL`). -/
def InputConfig.noChannelOnly : InputConfig := ⟨true, false, false, false, false, false, false⟩

/-- The `gui::WindowInfo` fields this file touches. -/
structure WindowInfo where
  inputConfig : InputConfig
  touchableRegion : Region
  frameLeft : ℤ
  frameTop : ℤ
  frameRight : ℤ
  frameBottom : ℤ
  transform : Transform
  alpha : Q
  touchOcclusionMode : ℕ
  surfaceInset : ℤ
  replaceTouchableRegionWithCrop : Bool
  displayId : ℤ
deriving DecidableEq, Repr

def WindowInfo.default : WindowInfo :=
  { inputConfig := InputConfig.default
    touchableRegion := Region.empty
    frameLeft := 0, frameTop := 0, frameRight := 0, frameBottom := 0
    transform := Transform.ident
    alpha := 1
    touchOcclusionMode := 0
    surfaceInset := 0
    replaceTouchableRegionWithCrop := false
    displayId := 0 }

/-- `TouchOcclusionMode::BLOCK_UNTRUSTED` modelled as an opaque constant. -/
def touchOcclusionBlockUntrusted : ℕ := 7

structure OutputFilter where
  layerStack : ℕ
  toInternalDisplay : Bool
deriving DecidableEq, Repr

/-- The resolved per-occurrence snapshot (`LayerSnapshot`), with every field
the embedded file reads or writes. -/
structure LayerSnapshot where
  path : TraversalPath
  changes : Changes
  contentDirty : Bool
  isHiddenByPolicyFromParent : Bool
  isHiddenByPolicyFromRelativeParent : Bool
  isVisible : Bool
  colorA : Q
  colorRgb : ℕ
  alpha : Q
  isSecure : Bool
  isTrustedOverlay : Bool
  outputFilter : OutputFilter
  stretchEffect : StretchEffect
  colorTransform : List ℕ
  colorTransformIsIdentity : Bool
  compositionType : ℕ
  dimmingEnabled : Bool
  layerOpaqueFlagSet : Bool
  acquireFence : ℕ
  buffer : Option ℕ
  bufferSize : IRect
  geomBufferSize : IRect
  croppedBufferSize : IRect
  dataspace : ℕ
  externalTexture : Option ExternalTexture
  frameNumber : ℕ
  geomBufferTransform : ℕ
  geomBufferUsesDisplayInverseTransform : Bool
  geomContentCrop : IRect
  geomUsesSourceCrop : Bool
  hasProtectedContent : Bool
  isHdrY410 : Bool
  sidebandStream : Bool
  surfaceDamage : Region
  transparentRegionHint : Region
  isColorspaceAgnostic : Bool
  backgroundBlurRadius : ℕ
  blurRegions : List ℕ
  hdrMetadata : ℕ
  geomCrop : IRect
  localTransform : Transform
  localTransformInverse : Transform
  geomLayerTransform : Transform
  invalidTransform : Bool
  geomInverseLayerTransform : Transform
  geomLayerBounds : FRect
  transformedBounds : FRect
  parentTransform : Transform
  cursorFrame : IRect
  bufferNeedsFiltering : Bool
  roundedCorner : RoundedCornerState
  shadowRadius : Q
  shadowSettings : ShadowSettings
  forceClientComposition : Bool
  isOpaque : Bool
  blendMode : BlendMode
  layerMetadata : List (ℕ × ℕ)
  relativeLayerMetadata : List (ℕ × ℕ)
  inputInfo : WindowInfo
  dropInputMode : DropInputMode
  globalZ : ℕ
deriving DecidableEq

/-- Modelled from the spec: a default-initialised snapshot tagged with its
traversal key, as created by the Snapshot Store. -/
def LayerSnapshot.mkDefault (path : TraversalPath) : LayerSnapshot :=
  { path := path
    changes := Changes.none
    contentDirty := false
    isHiddenByPolicyFromParent := false
    isHiddenByPolicyFromRelativeParent := false
    isVisible := false
    colorA := 1
    colorRgb := 0
    alpha := 1
    isSecure := false
    isTrustedOverlay := false
    outputFilter := ⟨defaultLayerStack, false⟩
    stretchEffect := ⟨false, 0⟩
    colorTransform := []
    colorTransformIsIdentity := true
    compositionType := 0
    dimmingEnabled := true
    layerOpaqueFlagSet := false
    acquireFence := noFence
    buffer := none
    bufferSize := IRect.emptyRect
    geomBufferSize := IRect.emptyRect
    croppedBufferSize := IRect.emptyRect
    dataspace := 0
    externalTexture := none
    frameNumber := 0
    geomBufferTransform := 0
    geomBufferUsesDisplayInverseTransform := false
    geomContentCrop := IRect.emptyRect
    geomUsesSourceCrop := false
    hasProtectedContent := false
    isHdrY410 := false
    sidebandStream := false
    surfaceDamage := Region.empty
    transparentRegionHint := Region.empty
    isColorspaceAgnostic := false
    backgroundBlurRadius := 0
    blurRegions := []
    hdrMetadata := 0
    geomCrop := IRect.emptyRect
    localTransform := Transform.ident
    localTransformInverse := Transform.ident
    geomLayerTransform := Transform.ident
    invalidTransform := false
    geomInverseLayerTransform := Transform.ident
    geomLayerBounds := ⟨0, 0, 0, 0⟩
    transformedBounds := ⟨0, 0, 0, 0⟩
    parentTransform := Transform.ident
    cursorFrame := IRect.emptyRect
    bufferNeedsFiltering := false
    roundedCorner := RoundedCornerState.default
    shadowRadius := 0
    shadowSettings := ShadowSettings.default
    forceClientComposition := false
    isOpaque := false
    blendMode := BlendMode.nonE
    layerMetadata := []
    relativeLayerMetadata := []
    inputInfo := WindowInfo.default
    dropInputMode := DropInputMode.nonE
    globalZ := 0 }

namespace LayerSnapshot

/-- Modelled from the spec: `LayerSnapshot::hasBufferOrSidebandStream` — the
node owns pixel content. -/
def hasBufferOrSidebandStream (s : LayerSnapshot) : Bool :=
  s.externalTexture.isSome || s.sidebandStream

/-- Modelled from the spec: `LayerSnapshot::isHiddenByPolicy` — hidden from
the attach parent or from the relative parent. -/
def isHiddenByPolicy (s : LayerSnapshot) : Bool :=
  s.isHiddenByPolicyFromParent || s.isHiddenByPolicyFromRelativeParent

/-- Modelled from the spec: the node fills a solid colour when it has no
pixel content (delegated predicate, kept at the interface level). -/
def fillsColor (s : LayerSnapshot) : Bool :=
  !s.hasBufferOrSidebandStream && Q.ble 0 s.colorA

/-- Modelled from the spec: "has-content-or-channel" delegated predicate —
the node has something to draw. -/
def hasSomethingToDraw (s : LayerSnapshot) : Bool :=
  s.hasBufferOrSidebandStream || s.fillsColor || Q.blt 0 s.shadowSettings.length ||
    s.backgroundBlurRadius > 0 || !s.blurRegions.isEmpty

/-- Modelled from the spec: `LayerSnapshot::getIsVisible` — policy-visible,
non-zero alpha, and something to draw. -/
def getIsVisible (s : LayerSnapshot) : Bool :=
  !s.isHiddenByPolicy && Q.blt 0 s.colorA && s.hasSomethingToDraw

/-- Modelled from the spec: `LayerSnapshot::canReceiveInput` — the
policy-visibility predicate that ignores buffer-arrival state. -/
def canReceiveInput (s : LayerSnapshot) : Bool :=
  !s.isHiddenByPolicy && Q.blt 0 s.colorA

/-- Modelled from the spec: `LayerSnapshot::isContentOpaque` — content is
opaque when there is something to draw and the opaque flag is set. -/
def isContentOpaque (s : LayerSnapshot) : Bool :=
  s.hasSomethingToDraw && s.layerOpaqueFlagSet

/-- Modelled from the spec: `LayerSnapshot::isTransformValid` — the composed
transform is non-degenerate.  (Non-finite components of the machine-float
original are unrepresentable over exact fractions, so validity reduces to
invertibility.) -/
def isTransformValid (t : Transform) : Bool := !(t.det.beq 0)

end LayerSnapshot

/-- `frontend::DisplayInfo` as consumed here: the display's screen transform
and the `info` fields read by this file. -/
structure DisplayInfo where
  transform : Transform
  logicalWidth : ℤ
  logicalHeight : ℤ
  isPrimary : Bool
  isSecure : Bool
  rotationFlags : ℕ
deriving DecidableEq, Repr

/-- The default display descriptor used for unregistered outputs. -/
def DisplayInfo.default : DisplayInfo := ⟨Transform.ident, 0, 0, false, false, 0⟩

/-- `display::DisplayMap` lookup (`displays.get(layerStack)`). -/
def displayGet (displays : List (ℕ × DisplayInfo)) (stack : ℕ) : Option DisplayInfo :=
  (displays.find? (fun p => p.1 = stack)).map Prod.snd

/-- The scene tree (`LayerHierarchy`): a descriptor plus ordered child edges,
each tagged with a variant. -/
inductive LayerHierarchy where
  | node (layer : RequestedLayerState) (children : List (LayerHierarchy × Variant))

def LayerHierarchy.getLayer : LayerHierarchy → RequestedLayerState
  | .node layer _ => layer

def LayerHierarchy.children : LayerHierarchy → List (LayerHierarchy × Variant)
  | .node _ cs => cs

/-- The update context (`LayerSnapshotBuilder::Args`): tree root (its child
edges), global change summary, the current descriptor list and destroyed ids
(the lifecycle manager's interface), the display registry, and request
flags. -/
structure Args where
  rootChildren : List (LayerHierarchy × Variant)
  globalChanges : Changes
  layers : List RequestedLayerState
  destroyedLayerIds : List ℕ
  displays : List (ℕ × DisplayInfo)
  displayChanges : Bool
  forceUpdate : Bool
  includeMetadata : Bool
  globalShadowSettings : ShadowSettings

/-- The builder state: the synthetic root snapshot and the flat snapshot
array (the traversal-key index is derived from the array; the source keeps
both containers consistent). -/
structure Builder where
  rootSnapshot : LayerSnapshot
  snapshots : List LayerSnapshot

/-- `getMaxDisplayBounds`: accumulate the maximal logical width and height
over the registered displays (starting from `ui::kEmptySize`, i.e. 0×0;
5000×5000 when the registry is empty), then return the rectangle spanning
ten times that size in every direction. -/
def getMaxDisplayBounds (displays : List (ℕ × DisplayInfo)) : FRect :=
  let maxSize : ℤ × ℤ :=
    if displays.isEmpty then (5000, 5000)
    else displays.foldl
      (fun sz p => (max sz.1 p.2.logicalWidth, max sz.2 p.2.logicalHeight)) (0, 0)
  let xMax : Q := Q.ofInt maxSize.1 * 10
  let yMax : Q := Q.ofInt maxSize.2 * 10
  ⟨-xMax, -yMax, xMax, yMax⟩

/-- `__builtin_add_overflow` on `int32_t`: the sum, or `none` when it leaves
the 32-bit two's-complement range. -/
def addOverflow32 (x y : ℤ) : Option ℤ :=
  let s := x + y
  if -(2 ^ 31) ≤ s ∧ s < 2 ^ 31 then some s else none

/-- The body of `transformTouchableRegionSafely`'s loop: translate one
rectangle's four coordinates with overflow detection, `none` when any
addition overflows. -/
def translateRectChecked (tx ty : ℤ) (rect : IRect) : Option IRect :=
  match addOverflow32 rect.left tx, addOverflow32 rect.top ty,
        addOverflow32 rect.right tx, addOverflow32 rect.bottom ty with
  | some l, some tp, some rr, some bb => some ⟨l, tp, rr, bb⟩
  | _, _, _, _ => none

/-- `transformTouchableRegionSafely`: apply the transform without its
translation, then translate each rectangle by the rounded offset, dropping
any rectangle whose coordinate addition overflows 32 bits. -/
def transformTouchableRegionSafely (t : Transform) (r : Region) : Region :=
  let tx := truncQ (t.tx + 1/2)
  let ty := truncQ (t.ty + 1/2)
  let transformWithoutOffset := t.setTranslate 0 0
  let transformed := Region.transformBy transformWithoutOffset r
  transformed.foldl
    (fun ret rect =>
      match translateRectChecked tx ty rect with
      | some newRect => ret.orSelf newRect
      | none => ret)
    Region.empty

/-- `getInputTransform`: the parent's absolute transform when the node owns
pixel content, else the node's (absolute) layer transform. -/
def getInputTransform (s : LayerSnapshot) : Transform :=
  if !s.hasBufferOrSidebandStream then s.geomLayerTransform
  else s.parentTransform

/-- `getInputBounds`: cropped content bounds, reprojected by the local
transform only when that transform is non-identity and the bounds valid. -/
def getInputBounds (s : LayerSnapshot) : IRect :=
  if !s.hasBufferOrSidebandStream then s.croppedBufferSize
  else if s.localTransform.isIdentity || !s.croppedBufferSize.isValid then
    s.croppedBufferSize
  else s.localTransform.transformRect s.croppedBufferSize

/-- `fillInputFrameInfo`: derive the hit-test frame, display-to-input
transform and display-space touchable region for one snapshot. -/
def fillInputFrameInfo (info : WindowInfo) (screenToDisplay : Transform)
    (s : LayerSnapshot) : WindowInfo :=
  let tmpBounds := getInputBounds s
  let info := if !tmpBounds.isValid then { info with touchableRegion := Region.empty } else info
  let tmpBounds := if !tmpBounds.isValid then IRect.emptyRect else tmpBounds
  let inputBoundsInLayer := tmpBounds.toFRect
  let surfaceInset : Q := Q.ofInt info.surfaceInset
  let xSurfaceInset : Q := max 0 (min surfaceInset (inputBoundsInLayer.width / 2))
  let ySurfaceInset : Q := max 0 (min surfaceInset (inputBoundsInLayer.height / 2))
  let insetBoundsInLayer : FRect :=
    ⟨inputBoundsInLayer.left + xSurfaceInset, inputBoundsInLayer.top + ySurfaceInset,
     inputBoundsInLayer.right - xSurfaceInset, inputBoundsInLayer.bottom - ySurfaceInset⟩
  let croppedInsetBoundsInLayer := s.geomLayerBounds.intersect insetBoundsInLayer
  let layerToScreen := getInputTransform s
  let layerToDisplay := screenToDisplay.comp layerToScreen
  let roundedFrameInDisplay := (layerToDisplay.transformFR croppedInsetBoundsInLayer).toIRect
  let info := { info with
    frameLeft := roundedFrameInDisplay.left
    frameTop := roundedFrameInDisplay.top
    frameRight := roundedFrameInDisplay.right
    frameBottom := roundedFrameInDisplay.bottom }
  let inputToLayer := Transform.translate insetBoundsInLayer.left insetBoundsInLayer.top
  let inputToDisplay := layerToDisplay.comp inputToLayer
  { info with
    transform := inputToDisplay.inverse
    touchableRegion := transformTouchableRegionSafely inputToDisplay info.touchableRegion }

/-- Set the `DROP_INPUT` flag on a snapshot's input config. -/
def LayerSnapshot.setDropInput (s : LayerSnapshot) : LayerSnapshot :=
  { s with inputInfo := { s.inputInfo with
      inputConfig := { s.inputInfo.inputConfig with dropInput := true } } }

/-- Set the `DROP_INPUT_IF_OBSCURED` flag on a snapshot's input config. -/
def LayerSnapshot.setDropInputIfObscured (s : LayerSnapshot) : LayerSnapshot :=
  { s with inputInfo := { s.inputInfo with
      inputConfig := { s.inputInfo.inputConfig with dropInputIfObscured := true } } }

/-- `handleDropInputMode`: resolve the drop-input policy against the parent.
Note that in the source the parent-alpha check does not return: the
obscured-path checks that follow still run (and may set the
`DROP_INPUT_IF_OBSCURED` flag in addition). -/
def handleDropInputMode (s parentSnapshot : LayerSnapshot) : LayerSnapshot :=
  if s.inputInfo.inputConfig.noInputChannel then s
  else if s.dropInputMode = DropInputMode.all then s.setDropInput
  else if s.dropInputMode ≠ DropInputMode.obscured then s
  else
    let s := if !(parentSnapshot.colorA.beq 1) then s.setDropInput else s
    let bufferSize := s.croppedBufferSize
    if !bufferSize.isValid then s.setDropInputIfObscured
    else
      let bufferInScreenSpace := s.geomLayerTransform.transformRect bufferSize
      let croppedByParent := bufferInScreenSpace ≠ s.transformedBounds.toIRect
      if croppedByParent then s.setDropInput else s.setDropInputIfObscured

/-- `getBufferNeedsFiltering`: the integer layer size differs from the
unrotated buffer size. -/
def getBufferNeedsFiltering (s : LayerSnapshot) (unrotatedBufferSize : USize) : Bool :=
  let layerWidth := truncQ s.geomLayerBounds.width
  let layerHeight := truncQ s.geomLayerBounds.height
  layerWidth ≠ unrotatedBufferSize.width || layerHeight ≠ unrotatedBufferSize.height

/-- `getBlendMode`: `NONE` for opaque full-alpha content, else premultiplied
or coverage depending on the descriptor. -/
def getBlendMode (s : LayerSnapshot) (requested : RequestedLayerState) : BlendMode :=
  if !(s.alpha.beq 1) || !s.isContentOpaque then
    if requested.premultipliedAlpha then BlendMode.premultiplied else BlendMode.coverage
  else BlendMode.nonE

/-- `LayerSnapshotBuilder::getRootSnapshot`: the synthetic no-parent
snapshot. -/
def getRootSnapshot : LayerSnapshot :=
  { LayerSnapshot.mkDefault TraversalPath.root with
    changes := Changes.none
    isHiddenByPolicyFromParent := false
    isHiddenByPolicyFromRelativeParent := false
    parentTransform := Transform.ident
    geomLayerTransform := Transform.ident
    geomInverseLayerTransform := Transform.ident
    geomLayerBounds := getMaxDisplayBounds []
    roundedCorner := RoundedCornerState.default
    stretchEffect := ⟨false, 0⟩
    outputFilter := ⟨defaultLayerStack, false⟩
    isSecure := false
    colorA := 1
    colorTransformIsIdentity := true
    shadowRadius := 0
    layerMetadata := []
    relativeLayerMetadata := []
    inputInfo := { WindowInfo.default with touchOcclusionMode := touchOcclusionBlockUntrusted }
    dropInputMode := DropInputMode.nonE
    isTrustedOverlay := false }

/-- Store lookup by traversal key (`mIdToSnapshot.find`): index of the first
snapshot matching the key. -/
def findSnapshotIdx (snaps : List LayerSnapshot) (p : TraversalPath) : Option ℕ :=
  snaps.findIdx? (fun s => s.path.sameKey p)

/-- `LayerSnapshotBuilder::getSnapshot(TraversalPath)`. -/
def getSnapshotByPath (snaps : List LayerSnapshot) (p : TraversalPath) : Option LayerSnapshot :=
  snaps.find? (fun s => s.path.sameKey p)

/-- `LayerSnapshotBuilder::getSnapshot(uint32_t)`: `none` models
`UNASSIGNED_LAYER_ID`; otherwise look up the plain (non-mirrored) key. -/
def getSnapshotById (snaps : List LayerSnapshot) (layerId : Option ℕ) : Option LayerSnapshot :=
  match layerId with
  | none => none
  | some i => getSnapshotByPath snaps ⟨some i, Variant.attached, [], []⟩

/-- Replace the snapshot stored under a traversal key. -/
def setSnapshotByPath (snaps : List LayerSnapshot) (p : TraversalPath)
    (s : LayerSnapshot) : List LayerSnapshot :=
  match findSnapshotIdx snaps p with
  | none => snaps
  | some i => snaps.set i s

/-- Swap two positions of the flat array (`std::iter_swap`). -/
def listSwap (l : List LayerSnapshot) (i j : ℕ) : List LayerSnapshot :=
  match l[i]?, l[j]? with
  | some x, some y => (l.set i y).set j x
  | _, _ => l

/-- `LayerSnapshotBuilder::updateRelativeState`: relative-edge inheritance of
hidden-by-policy and aggregated metadata, then visibility recomputation. -/
def updateRelativeState (s parentSnapshot : LayerSnapshot) (parentIsRelative : Bool)
    (args : Args) : LayerSnapshot :=
  let s :=
    if parentIsRelative then
      let s := { s with
        isHiddenByPolicyFromRelativeParent := parentSnapshot.isHiddenByPolicyFromParent }
      if args.includeMetadata then
        { s with relativeLayerMetadata := parentSnapshot.layerMetadata }
      else s
    else
      let s := { s with
        isHiddenByPolicyFromRelativeParent := parentSnapshot.isHiddenByPolicyFromRelativeParent }
      if args.includeMetadata then
        { s with relativeLayerMetadata := parentSnapshot.relativeLayerMetadata }
      else s
  { s with isVisible := s.getIsVisible }

/-- `LayerSnapshotBuilder::resetRelativeState`. -/
def resetRelativeState (s : LayerSnapshot) : LayerSnapshot :=
  { s with isHiddenByPolicyFromRelativeParent := false, relativeLayerMetadata := [] }

/-- `getDisplayRotationFlags`: the primary display's rotation flags, else 0. -/
def getDisplayRotationFlags (displays : List (ℕ × DisplayInfo)) (layerStack : ℕ) : ℕ :=
  let display := (displayGet displays layerStack).getD DisplayInfo.default
  if display.isPrimary then display.rotationFlags else 0

/-- Modelled from the spec: `LayerMetadata::merge` — entries of the second
map are added to the first, overriding on key collision. -/
def metaMerge (base other : List (ℕ × ℕ)) : List (ℕ × ℕ) :=
  (base.filter (fun kv => (other.find? (fun kv2 => kv2.1 = kv.1)).isNone)) ++ other

/-- The parent's rounded-corner state reprojected into the node's local
space (the `parentRoundedCorner` local of `updateRoundedCorner`): corner
rectangle mapped through the inverse local transform, radius scaled by its
axis scale factors; the default state when the parent has no rounded
corners. -/
def parentRoundedCornerOf (s parentSnapshot : LayerSnapshot) : RoundedCornerState :=
  if parentSnapshot.roundedCorner.hasRoundedCorners then
    let t := s.localTransform.inverse
    { cropRect := t.transformFR parentSnapshot.roundedCorner.cropRect
      radiusX := parentSnapshot.roundedCorner.radiusX * t.getScaleX
      radiusY := parentSnapshot.roundedCorner.radiusY * t.getScaleY }
  else RoundedCornerState.default

/-- The node's own rounded-corner settings (the `layerSettings` local of
`updateRoundedCorner`): the cropped buffer rect with the requested corner
radius on both axes. -/
def layerRoundedSettings (s : LayerSnapshot) (requested : RequestedLayerState) :
    RoundedCornerState :=
  ⟨s.croppedBufferSize.toFRect, requested.cornerRadius, requested.cornerRadius⟩

/-- `LayerSnapshotBuilder::updateRoundedCorner`: reproject the parent's
rounded-corner state into local space and pick between it and the node's own
settings. -/
def updateRoundedCorner (s : LayerSnapshot) (requested : RequestedLayerState)
    (parentSnapshot : LayerSnapshot) : LayerSnapshot :=
  let parentRoundedCorner := parentRoundedCornerOf s parentSnapshot
  let layerCropRect := s.croppedBufferSize.toFRect
  let layerSettings := layerRoundedSettings s requested
  let layerSettingsValid := layerSettings.hasRoundedCorners && !layerCropRect.isEmpty
  let parentRoundedCornerValid := parentRoundedCorner.hasRoundedCorners
  let rc :=
    if layerSettingsValid && parentRoundedCornerValid then
      if layerCropRect.left.blt parentRoundedCorner.cropRect.left &&
         layerCropRect.top.blt parentRoundedCorner.cropRect.top &&
         parentRoundedCorner.cropRect.right.blt layerCropRect.right &&
         parentRoundedCorner.cropRect.bottom.blt layerCropRect.bottom then
        parentRoundedCorner
      else layerSettings
    else if layerSettingsValid then layerSettings
    else if parentRoundedCornerValid then parentRoundedCorner
    else RoundedCornerState.default
  { s with roundedCorner := rc }

/-- Bounding box of a region's rectangles. -/
def regionBounds (reg : Region) : IRect :=
  match reg with
  | [] => IRect.emptyRect
  | r :: rs => rs.foldl
      (fun acc x => ⟨min acc.left x.left, min acc.top x.top,
                     max acc.right x.right, max acc.bottom x.bottom⟩) r

/-- Modelled from the spec: `Rect`-minus-`Rect` — trim the window on the one
side fully spanned by the excluded rect, else leave it unchanged. -/
def rectReduce (win ex : IRect) : IRect :=
  if ex.left ≤ win.left ∧ win.right ≤ ex.right then
    if ex.top ≤ win.top ∧ ex.bottom < win.bottom then
      ⟨win.left, max win.top ex.bottom, win.right, win.bottom⟩
    else if win.bottom ≤ ex.bottom ∧ win.top < ex.top then
      ⟨win.left, win.top, win.right, min win.bottom ex.top⟩
    else win
  else if ex.top ≤ win.top ∧ win.bottom ≤ ex.bottom then
    if ex.left ≤ win.left ∧ ex.right < win.right then
      ⟨max win.left ex.right, win.top, win.right, win.bottom⟩
    else if win.right ≤ ex.right ∧ win.left < ex.left then
      ⟨win.left, win.top, min win.right ex.left, win.bottom⟩
    else win
  else win

/-- Modelled from the spec: `RequestedLayerState::reduce` — subtract the
transparent region from the window and snap to the bounds. -/
def reduceRect (win : IRect) (exclude : Region) : IRect :=
  if exclude.isEmpty then win else rectReduce win (regionBounds exclude)

/-- `LayerSnapshotBuilder::updateLayerBounds`: local and absolute transform
composition (with the degenerate-transform reset), bounds derivation and
screen-space projection. -/
def updateLayerBounds (s : LayerSnapshot) (requested : RequestedLayerState)
    (parentSnapshot : LayerSnapshot) (displayRotationFlags : ℕ) : LayerSnapshot :=
  let s := { s with
    croppedBufferSize := requested.getCroppedBufferSize s.bufferSize
    geomCrop := requested.crop
    localTransform := requested.getTransform displayRotationFlags }
  let s := { s with localTransformInverse := s.localTransform.inverse }
  let s := { s with
    geomLayerTransform := parentSnapshot.geomLayerTransform.comp s.localTransform }
  let s := { s with
    invalidTransform := !LayerSnapshot.isTransformValid s.geomLayerTransform }
  let s := if s.invalidTransform then { s with geomLayerTransform := Transform.ident } else s
  let s := { s with geomInverseLayerTransform := s.geomLayerTransform.inverse }
  let parentBounds := s.localTransform.inverse.transformFR parentSnapshot.geomLayerBounds
  let s := { s with
    geomLayerBounds :=
      if requested.externalTexture.isSome then s.bufferSize.toFRect else parentBounds }
  let s :=
    if !requested.crop.isEmpty then
      { s with geomLayerBounds := s.geomLayerBounds.intersect requested.crop.toFRect }
    else s
  let s := { s with geomLayerBounds := s.geomLayerBounds.intersect parentBounds }
  let s := { s with transformedBounds := s.geomLayerTransform.transformFR s.geomLayerBounds }
  let s := { s with parentTransform := parentSnapshot.geomLayerTransform }
  let bounds := reduceRect s.croppedBufferSize requested.transparentRegion
  let s := { s with cursorFrame := s.geomLayerTransform.transformRect bounds }
  { s with
    bufferNeedsFiltering := s.externalTexture.isSome &&
      getBufferNeedsFiltering s (requested.getUnrotatedBufferSize displayRotationFlags) }

/-- `LayerSnapshotBuilder::updateShadows`. -/
def updateShadows (s : LayerSnapshot) (requested : RequestedLayerState)
    (globalShadowSettings : ShadowSettings) : LayerSnapshot :=
  let s := { s with
    shadowRadius := requested.shadowRadius
    shadowSettings := { s.shadowSettings with length := requested.shadowRadius } }
  if Q.blt 0 s.shadowRadius then
    let s := { s with shadowSettings := globalShadowSettings }
    let s := { s with shadowSettings := { s.shadowSettings with boundaries := s.geomLayerBounds } }
    let s := { s with shadowSettings := { s.shadowSettings with
      casterIsTranslucent := !s.isContentOpaque || s.alpha.blt 1 } }
    { s with shadowSettings := { s.shadowSettings with
      ambientColor := s.shadowSettings.ambientColor * s.alpha
      spotColor := s.shadowSettings.spotColor * s.alpha } }
  else s

/-- The secure-display rule of `updateInput`: drop input when the display
lacks the secure flag but the node is secure. -/
def applySecureDrop (displayInfo : DisplayInfo) (s : LayerSnapshot) : LayerSnapshot :=
  if !displayInfo.isSecure && s.isSecure then s.setDropInput else s

/-- The touch-crop cross-reference rule of `updateInput`: replace the
touchable region with the target's transformed bounds (own bounds when the
target is absent), or intersect with the target's bounds. -/
def applyTouchCrop (store : List LayerSnapshot) (displayInfo : DisplayInfo)
    (requested : RequestedLayerState) (s : LayerSnapshot) : LayerSnapshot :=
  let cropLayerSnapshot := getSnapshotById store requested.touchCropId
  if s.inputInfo.replaceTouchableRegionWithCrop then
    let bounds : IRect :=
      match cropLayerSnapshot with
      | some crop => crop.transformedBounds.toIRect
      | none => s.transformedBounds.toIRect
    { s with inputInfo := { s.inputInfo with
      touchableRegion := Region.ofRect (displayInfo.transform.transformRect bounds) } }
  else
    match cropLayerSnapshot with
    | some crop =>
      { s with inputInfo := { s.inputInfo with
        touchableRegion := s.inputInfo.touchableRegion.intersectRect
          (displayInfo.transform.transformRect crop.transformedBounds.toIRect) } }
    | none => s

/-- The trusted-overlay tagging rule of `updateInput`. -/
def applyTrustedOverlay (s : LayerSnapshot) : LayerSnapshot :=
  if s.isTrustedOverlay then
    { s with inputInfo := { s.inputInfo with
      inputConfig := { s.inputInfo.inputConfig with trustedOverlay := true } } }
  else s

/-- The clone rule of `updateInput`: tag the config as a clone and intersect
the touchable region with the mirror root's transformed bounds (when that
root has a resolved snapshot). -/
def applyCloneCrop (store : List LayerSnapshot) (displayInfo : DisplayInfo)
    (path : TraversalPath) (s : LayerSnapshot) : LayerSnapshot :=
  if path.isClone then
    let s := { s with inputInfo := { s.inputInfo with
      inputConfig := { s.inputInfo.inputConfig with clone := true } } }
    match getSnapshotById store path.mirrorRootIds.getLast? with
    | some clonedRootSnapshot =>
      let rect := displayInfo.transform.transformRect clonedRootSnapshot.transformedBounds.toIRect
      { s with inputInfo := { s.inputInfo with
        touchableRegion := s.inputInfo.touchableRegion.intersectRect rect } }
    | none => s
  else s

/-- `LayerSnapshotBuilder::updateInput`: resolve the input descriptor — frame
and transform, touch suppression, drop-input policy, touch-crop and clone
intersections.  `store` is the builder's snapshot array, used for the
cross-reference lookups. -/
def updateInput (store : List LayerSnapshot) (s : LayerSnapshot)
    (requested : RequestedLayerState) (parentSnapshot : LayerSnapshot)
    (displayInfo : DisplayInfo) (noValidDisplay : Bool)
    (path : TraversalPath) : LayerSnapshot :=
  let s := { s with inputInfo := { s.inputInfo with
    displayId := (s.outputFilter.layerStack : ℤ) } }
  if !requested.hasInputInfo then
    { s with inputInfo := { s.inputInfo with inputConfig := InputConfig.noChannelOnly } }
  else
    let s := { s with inputInfo := fillInputFrameInfo s.inputInfo displayInfo.transform s }
    let s :=
      if noValidDisplay then
        { s with inputInfo := { s.inputInfo with
          inputConfig := { s.inputInfo.inputConfig with notTouchable := true } } }
      else s
    let visible := if requested.hasInputInfo then s.canReceiveInput else s.isVisible
    let s := { s with inputInfo := { s.inputInfo with
      inputConfig := { s.inputInfo.inputConfig with notVisible := !visible } } }
    let s := { s with inputInfo := { s.inputInfo with alpha := s.colorA } }
    let s := { s with inputInfo := { s.inputInfo with
      touchOcclusionMode := parentSnapshot.inputInfo.touchOcclusionMode } }
    let s :=
      if requested.dropInputMode = DropInputMode.all ||
         parentSnapshot.dropInputMode = DropInputMode.all then
        { s with dropInputMode := DropInputMode.all }
      else if requested.dropInputMode = DropInputMode.obscured ||
              parentSnapshot.dropInputMode = DropInputMode.obscured then
        { s with dropInputMode := DropInputMode.obscured }
      else { s with dropInputMode := DropInputMode.nonE }
    let s := handleDropInputMode s parentSnapshot
    let s := applySecureDrop displayInfo s
    let s := applyTouchCrop store displayInfo requested s
    let s := applyTrustedOverlay s
    applyCloneCrop store displayInfo path s

/-- `LayerSnapshotBuilder::updateSnapshot`: the per-node update.  Composes
the change bitmask and hidden-by-policy flag, stops early for hidden nodes,
then conditionally recomputes the field groups gated by the present change
flags (a forced update recomputes all groups).  `store` is the builder's
snapshot array, consulted only by the input pass. -/
def updateSnapshot (store : List LayerSnapshot) (args : Args) (snapshot : LayerSnapshot)
    (requested : RequestedLayerState) (parentSnapshot : LayerSnapshot)
    (path : TraversalPath) : LayerSnapshot :=
  let parentChanges := parentSnapshot.changes.and Changes.propagateMask
  let s := { snapshot with
    changes := parentChanges.or requested.changes
    isHiddenByPolicyFromParent :=
      parentSnapshot.isHiddenByPolicyFromParent || requested.hiddenByPolicy
    contentDirty := requested.whatContentDirty }
  if s.isHiddenByPolicyFromParent then { s with isVisible := false }
  else
    let displayRotationFlags := getDisplayRotationFlags args.displays s.outputFilter.layerStack
    let forceUpdate := args.forceUpdate || s.changes.anyOf Changes.visCreatedMask
    let s :=
      if forceUpdate || s.changes.anyOf Changes.affectsChildrenMask then
        let s := { s with colorA := parentSnapshot.colorA * requested.colorA }
        let s := { s with alpha := s.colorA }
        let s := { s with isSecure := parentSnapshot.isSecure || requested.flagSecure }
        let s := { s with
          isTrustedOverlay := parentSnapshot.isTrustedOverlay || requested.isTrustedOverlay }
        let s := { s with outputFilter := { s.outputFilter with
          layerStack :=
            if requested.parentId.isSome then parentSnapshot.outputFilter.layerStack
            else requested.layerStack } }
        let s := { s with outputFilter := { s.outputFilter with
          toInternalDisplay :=
            parentSnapshot.outputFilter.toInternalDisplay || requested.flagSkipScreenshot } }
        let s := { s with
          stretchEffect :=
            if requested.stretchEffect.hasEffect then requested.stretchEffect
            else parentSnapshot.stretchEffect }
        if !parentSnapshot.colorTransformIsIdentity then
          { s with
            colorTransform := parentSnapshot.colorTransform ++ requested.colorTransform
            colorTransformIsIdentity := false }
        else
          { s with
            colorTransform := requested.colorTransform
            colorTransformIsIdentity := !requested.hasColorTransform }
      else s
    let s :=
      if forceUpdate || !requested.changes.isEmpty then
        { s with
          compositionType := requested.compositionType
          dimmingEnabled := requested.dimmingEnabled
          layerOpaqueFlagSet := requested.flagOpaque }
      else s
    let s :=
      if forceUpdate || requested.whatBufferChanges then
        let s := { s with
          acquireFence := (requested.bufferData.map BufferData.acquireFence).getD noFence }
        let s := { s with buffer := requested.externalTexture.map ExternalTexture.buffer }
        let s := { s with bufferSize := requested.getBufferSize displayRotationFlags }
        let s := { s with geomBufferSize := s.bufferSize }
        let s := { s with croppedBufferSize := requested.getCroppedBufferSize s.bufferSize }
        let s := { s with dataspace := requested.dataspace }
        let s := { s with externalTexture := requested.externalTexture }
        let s := { s with
          frameNumber := (requested.bufferData.map BufferData.frameNumber).getD 0 }
        let s := { s with geomBufferTransform := requested.bufferTransform }
        let s := { s with
          geomBufferUsesDisplayInverseTransform := requested.transformToDisplayInverse }
        let s := { s with geomContentCrop := requested.bufferCrop }
        let s := { s with geomUsesSourceCrop := s.hasBufferOrSidebandStream }
        let s := { s with
          hasProtectedContent :=
            (requested.externalTexture.map ExternalTexture.usageProtected).getD false }
        let s := { s with
          isHdrY410 := requested.dataspace = dataspaceBT2020ItuPq &&
            requested.api = nativeWindowApiMedia &&
            (requested.bufferData.map BufferData.pixelFormat) = some halPixelFormatRgba1010102 }
        let s := { s with sidebandStream := requested.sidebandStream }
        let s := { s with surfaceDamage := requested.surfaceDamageRegion }
        { s with transparentRegionHint := requested.transparentRegion }
      else s
    let s :=
      if forceUpdate || s.changes.anyOf Changes.contentOnly then
        { s with
          colorRgb := requested.colorRgb
          isColorspaceAgnostic := requested.colorSpaceAgnostic
          backgroundBlurRadius := requested.backgroundBlurRadius
          blurRegions := requested.blurRegions
          hdrMetadata := requested.hdrMetadata }
      else s
    let s :=
      if forceUpdate || s.changes.anyOf Changes.hierGeomMask then
        let s := updateLayerBounds s requested parentSnapshot displayRotationFlags
        updateRoundedCorner s requested parentSnapshot
      else s
    let s :=
      if forceUpdate || s.changes.anyOf Changes.hierGeomInputMask then
        let displayInfo := displayGet args.displays s.outputFilter.layerStack
        let noValidDisplay := displayInfo.isNone
        updateInput store s requested parentSnapshot
          (displayInfo.getD DisplayInfo.default) noValidDisplay path
      else s
    let s := updateShadows s requested args.globalShadowSettings
    let s :=
      if args.includeMetadata then
        { s with layerMetadata := metaMerge parentSnapshot.layerMetadata requested.metadata }
      else s
    let s := { s with
      forceClientComposition := s.isHdrY410 || Q.blt 0 s.shadowSettings.length ||
        !requested.blurRegions.isEmpty || s.stretchEffect.hasEffect }
    let s := { s with isVisible := s.getIsVisible }
    let s := { s with
      isOpaque := s.isContentOpaque && !s.roundedCorner.hasRoundedCorners && s.colorA.beq 1 }
    { s with blendMode := getBlendMode s requested }

/-- Clear one snapshot's per-frame dirty flags, as the fast paths do. -/
def clearDirty (s : LayerSnapshot) : LayerSnapshot :=
  { s with changes := Changes.none, contentDirty := false }

/-- The content fast path's descriptor lookup (`ftl::SmallMap` built with
`emplace_or_replace` over the Content-changed descriptors, so a later
descriptor with the same id replaces an earlier one). -/
def lookupContentLayer (layers : List RequestedLayerState) (layerId : Option ℕ) :
    Option RequestedLayerState :=
  match layerId with
  | none => none
  | some i =>
    (layers.filter (fun l => l.changes.content)).foldl
      (fun acc l => if l.id = i then some l else acc) none

/-- One step of the content fast path's flat walk: clear the dirty flags of
the snapshot at position `i`, and recompute it against the root snapshot
when its leaf id has a Content-changed descriptor. -/
def fastStep (args : Args) (rootSnapshot : LayerSnapshot)
    (snaps : List LayerSnapshot) (i : ℕ) : List LayerSnapshot :=
  match snaps[i]? with
  | none => snaps
  | some s =>
    let s := clearDirty s
    let snaps := snaps.set i s
    match lookupContentLayer args.layers s.path.id with
    | none => snaps
    | some layer =>
      snaps.set i (updateSnapshot snaps args s layer rootSnapshot TraversalPath.root)

/-- `LayerSnapshotBuilder::tryFastUpdate`: `some` of the updated builder when
a fast path applies, `none` when a full walk is required. -/
def tryFastUpdate (args : Args) (b : Builder) : Option Builder :=
  if args.forceUpdate then none
  else if args.globalChanges.isEmpty then
    some { b with snapshots := b.snapshots.map clearDirty }
  else if args.globalChanges ≠ Changes.contentOnly then none
  else
    some { b with
      snapshots := (List.range b.snapshots.length).foldl
        (fastStep args b.rootSnapshot) b.snapshots }

mutual

/-- `LayerSnapshotBuilder::updateSnapshotsInHierarchy`: fetch-or-create the
occurrence's snapshot, update it (relative inheritance for relative edges,
the full per-node update otherwise), then descend unless the node is hidden
with no visibility/hierarchy change. -/
def updateSnapshotsInHierarchy (args : Args) (h : LayerHierarchy)
    (path : TraversalPath) (parentSnapshot : LayerSnapshot) (b : Builder) : Builder :=
  match h with
  | .node layer cs =>
    let b :=
      if (getSnapshotByPath b.snapshots path).isSome then b
      else { b with snapshots :=
        b.snapshots ++ [{ LayerSnapshot.mkDefault path with globalZ := b.snapshots.length }] }
    let snap := (getSnapshotByPath b.snapshots path).getD (LayerSnapshot.mkDefault path)
    let updated :=
      if path.isRelative then
        updateRelativeState snap parentSnapshot (path.variant = Variant.relative) args
      else
        let snap := if path.isAttached then resetRelativeState snap else snap
        updateSnapshot b.snapshots args snap layer parentSnapshot path
    let b := { b with snapshots := setSnapshotByPath b.snapshots path updated }
    if updated.isHiddenByPolicy && !(updated.changes.anyOf Changes.visHierMask) then b
    else updateHierarchyChildren args cs path updated b

/-- Descend into the child edges in order, extending the traversal key for
each (`ScopedAddToTraversalPath`). -/
def updateHierarchyChildren (args : Args) (cs : List (LayerHierarchy × Variant))
    (path : TraversalPath) (parentSnapshot : LayerSnapshot) (b : Builder) : Builder :=
  match cs with
  | [] => b
  | (child, variant) :: rest =>
    let b := updateSnapshotsInHierarchy args child
      (path.extend child.getLayer.id variant) parentSnapshot b
    updateHierarchyChildren args rest path parentSnapshot b

end

/-- The visitor body of `sortSnapshotsByZ`'s z-order traversal: skip (and
prune) missing or policy-hidden-without-visibility-change occurrences;
assign the next index to computed-visible snapshots and swap them into
place, keeping both swapped snapshots' stored indices consistent. -/
def zVisit (snaps : List LayerSnapshot) (z : ℕ) (path : TraversalPath) :
    List LayerSnapshot × ℕ × Bool :=
  match findSnapshotIdx snaps path with
  | none => (snaps, z, false)
  | some i =>
    let s := (snaps[i]?).getD (LayerSnapshot.mkDefault path)
    if s.isHiddenByPolicy && !s.changes.visibility then (snaps, z, false)
    else if s.isVisible then
      let oldZ := s.globalZ
      let newZ := z
      let snaps := snaps.set i { s with globalZ := newZ }
      if oldZ = newZ then (snaps, z + 1, true)
      else
        let displaced := (snaps[newZ]?).getD (LayerSnapshot.mkDefault path)
        let snaps := snaps.set newZ { displaced with globalZ := oldZ }
        (listSwap snaps oldZ newZ, z + 1, true)
    else (snaps, z, true)

mutual

/-- Modelled from the spec: the tree owner's z-ordered traversal
(`LayerHierarchy::traverseInZOrder`), taken in the tree's child order; a
visitor returning false prunes the subtree. -/
def travZNode (h : LayerHierarchy) (path : TraversalPath)
    (st : List LayerSnapshot × ℕ) : List LayerSnapshot × ℕ :=
  match h with
  | .node _ cs =>
    let r := zVisit st.1 st.2 path
    if r.2.2 then travZChildren cs path (r.1, r.2.1) else (r.1, r.2.1)

def travZChildren (cs : List (LayerHierarchy × Variant)) (path : TraversalPath)
    (st : List LayerSnapshot × ℕ) : List LayerSnapshot × ℕ :=
  match cs with
  | [] => st
  | (child, variant) :: rest =>
    travZChildren rest path (travZNode child (path.extend child.getLayer.id variant) st)

end

/-- The trailing loop of `sortSnapshotsByZ`: every slot from the last
assigned index on is marked not-visible with its stored index set to its
array position. -/
def markTrailing (snaps : List LayerSnapshot) (z : ℕ) : List LayerSnapshot :=
  snaps.mapIdx (fun i s => if z ≤ i then { s with globalZ := i, isVisible := false } else s)

/-- `LayerSnapshotBuilder::sortSnapshotsByZ`: skipped unless forced or the
global summary has Hierarchy or Visibility changes; otherwise run the
z-order traversal and mark the trailing slots. -/
def sortSnapshotsByZ (args : Args) (b : Builder) : Builder :=
  if !args.forceUpdate && !(args.globalChanges.anyOf Changes.visHierMask) then b
  else
    let st := travZChildren args.rootChildren TraversalPath.root (b.snapshots, 0)
    { b with snapshots := markTrailing st.1 st.2 }

/-- The destroyed-snapshot eviction loop: swap-with-last removal of every
snapshot whose key's leaf id is in the destroyed set. -/
def evictLoop (destroyed : List ℕ) (snaps : List LayerSnapshot) (i : ℕ) :
    List LayerSnapshot :=
  if h : i < snaps.length then
    let s := snaps.get ⟨i, h⟩
    if (s.path.id.map (fun x => destroyed.contains x)).getD false then
      evictLoop destroyed ((listSwap snaps i (snaps.length - 1)).dropLast) i
    else evictLoop destroyed snaps (i + 1)
  else snaps
termination_by snaps.length - i
decreasing_by
  · simp only [listSwap]
    cases h1 : (listSwap snaps i (snaps.length - 1))[i]? <;>
      simp_all [listSwap] <;> split <;> simp_all <;> omega
  · omega

/-- `LayerSnapshotBuilder::updateSnapshots`: the full walk — root bounds
refresh, display-change stamping, pre-order descent from the root's child
edges, the z-order pass, root dirty-flag clearing, and eviction of destroyed
snapshots. -/
def updateSnapshots (args : Args) (b : Builder) : Builder :=
  let b :=
    if args.forceUpdate || args.displayChanges then
      { b with rootSnapshot :=
        { b.rootSnapshot with geomLayerBounds := getMaxDisplayBounds args.displays } }
    else b
  let b :=
    if args.displayChanges then
      { b with rootSnapshot := { b.rootSnapshot with changes := Changes.affectsGeomMask } }
    else b
  let b := updateHierarchyChildren args args.rootChildren TraversalPath.root b.rootSnapshot b
  let b := sortSnapshotsByZ args b
  let b := { b with rootSnapshot := { b.rootSnapshot with changes := Changes.none } }
  if args.destroyedLayerIds.isEmpty then b
  else { b with snapshots := evictLoop args.destroyedLayerIds b.snapshots 0 }

/-- `LayerSnapshotBuilder::update`: fast path if possible, else full walk. -/
def update (args : Args) (b : Builder) : Builder :=
  match tryFastUpdate args b with
  | some b1 => b1
  | none => updateSnapshots args b

/-- The default-constructed builder. -/
def Builder.init : Builder := ⟨getRootSnapshot, []⟩

/-- `LayerSnapshotBuilder(Args)`: construction forces a full update. -/
def Builder.ofArgs (args : Args) : Builder :=
  updateSnapshots { args with forceUpdate := true } Builder.init

/-! ### Spec-side definitions

Definitions below formalise wording of the specification, for comparison
against the code-derived definitions above. -/

/-- Spec wording: the most restrictive of two drop-input modes
(ALL dominates OBSCURED dominates NONE). -/
def maxDropInputMode (a b : DropInputMode) : DropInputMode :=
  if a = DropInputMode.all ∨ b = DropInputMode.all then DropInputMode.all
  else if a = DropInputMode.obscured ∨ b = DropInputMode.obscured then DropInputMode.obscured
  else DropInputMode.nonE

/-- Spec wording: the content bounds transformed by the node's absolute
transform differ from the node's already-computed transformed bounds (the
`croppedByParent` test of `handleDropInputMode`). -/
def bufferCroppedByParent (s : LayerSnapshot) : Bool :=
  s.geomLayerTransform.transformRect s.croppedBufferSize ≠ s.transformedBounds.toIRect

/-- Spec wording: the first rectangle is strictly inside the second on all
four edges (value comparison). -/
def strictlyInside (inner outer : FRect) : Bool :=
  outer.left.blt inner.left && outer.top.blt inner.top &&
    inner.right.blt outer.right && inner.bottom.blt outer.bottom

/-! ### Concrete fixtures

Concrete inputs used by witnesses and counterexamples. -/

/-- A descriptor with every field at a neutral default. -/
def baseLayer (id : ℕ) : RequestedLayerState :=
  { id := id
    changes := Changes.none
    whatContentDirty := false
    whatBufferChanges := false
    hiddenByPolicy := false
    colorA := 1
    colorRgb := 0
    flagSecure := false
    flagSkipScreenshot := false
    flagOpaque := false
    isTrustedOverlay := false
    parentId := none
    layerStack := 0
    stretchEffect := ⟨false, 0⟩
    colorTransform := []
    hasColorTransform := false
    compositionType := 0
    dimmingEnabled := true
    premultipliedAlpha := true
    bufferData := none
    externalTexture := none
    getBufferSize := fun _ => IRect.emptyRect
    getCroppedBufferSize := fun r => r
    getUnrotatedBufferSize := fun _ => ⟨0, 0⟩
    dataspace := 0
    api := 0
    sidebandStream := false
    bufferTransform := 0
    transformToDisplayInverse := false
    bufferCrop := IRect.emptyRect
    surfaceDamageRegion := []
    transparentRegion := []
    blurRegions := []
    backgroundBlurRadius := 0
    hdrMetadata := 0
    colorSpaceAgnostic := false
    crop := IRect.emptyRect
    getTransform := fun _ => Transform.ident
    cornerRadius := 0
    shadowRadius := 0
    metadata := []
    touchCropId := none
    hasInputInfo := false
    dropInputMode := DropInputMode.nonE }

/-- An args record with neutral defaults (no tree, no changes). -/
def baseArgs : Args :=
  { rootChildren := []
    globalChanges := Changes.none
    layers := []
    destroyedLayerIds := []
    displays := []
    displayChanges := false
    forceUpdate := false
    includeMetadata := false
    globalShadowSettings := ShadowSettings.default }

/-- C1 fixture, frame 0: a policy-hidden parent (id 1) with a child (id 2). -/
def c1LayerP0 : RequestedLayerState :=
  { baseLayer 1 with
    hiddenByPolicy := true
    changes := { Changes.none with hierarchy := true } }

def c1LayerC0 : RequestedLayerState := baseLayer 2

def c1Tree0 : List (LayerHierarchy × Variant) :=
  [(LayerHierarchy.node c1LayerP0 [(LayerHierarchy.node c1LayerC0 [], Variant.attached)],
    Variant.attached)]

def c1Args0 : Args :=
  { baseArgs with
    rootChildren := c1Tree0
    globalChanges := { Changes.none with hierarchy := true }
    layers := [c1LayerP0, c1LayerC0] }

/-- C1 fixture: the builder after the constructing (forced) update. -/
def c1Builder : Builder := Builder.ofArgs c1Args0

/-- C1 fixture, frame 1: only the child has a Content change. -/
def c1LayerP1 : RequestedLayerState := { c1LayerP0 with changes := Changes.none }

def c1LayerC1 : RequestedLayerState := { c1LayerC0 with changes := Changes.contentOnly }

def c1Tree1 : List (LayerHierarchy × Variant) :=
  [(LayerHierarchy.node c1LayerP1 [(LayerHierarchy.node c1LayerC1 [], Variant.attached)],
    Variant.attached)]

def c1Args1 : Args :=
  { baseArgs with
    rootChildren := c1Tree1
    globalChanges := Changes.contentOnly
    layers := [c1LayerP1, c1LayerC1] }

/-- C2 fixture: a snapshot with no pixel content whose absolute transform
differs from its local transform. -/
def c2Snap : LayerSnapshot :=
  { LayerSnapshot.mkDefault ⟨some 6, Variant.attached, [], []⟩ with
    localTransform := Transform.translate 5 5
    geomLayerTransform := Transform.translate 15 5
    parentTransform := Transform.translate 10 0 }

/-- C3 fixture: effective mode OBSCURED, invalid cropped buffer bounds. -/
def c3Snap : LayerSnapshot :=
  { LayerSnapshot.mkDefault ⟨some 5, Variant.attached, [], []⟩ with
    dropInputMode := DropInputMode.obscured
    croppedBufferSize := ⟨0, 0, -1, -1⟩ }

/-- C3 fixture: a parent whose resolved alpha is not fully opaque. -/
def c3Parent : LayerSnapshot :=
  { LayerSnapshot.mkDefault TraversalPath.root with colorA := 1/2 }

/-- C3 fixture: a descriptor with an input channel requesting OBSCURED. -/
def c3InputLayer : RequestedLayerState :=
  { baseLayer 5 with
    hasInputInfo := true
    dropInputMode := DropInputMode.obscured }

/-- C5 fixture: a policy-visible snapshot whose computed visible flag is
false, stored at slot 0. -/
def c5SnapA : LayerSnapshot :=
  { LayerSnapshot.mkDefault ⟨some 10, Variant.attached, [], []⟩ with
    globalZ := 0
    isVisible := false }

/-- C5 fixture: a visible snapshot stored at slot 1. -/
def c5SnapB : LayerSnapshot :=
  { LayerSnapshot.mkDefault ⟨some 11, Variant.attached, [], []⟩ with
    globalZ := 1
    isVisible := true }

def c5Builder : Builder := ⟨getRootSnapshot, [c5SnapA, c5SnapB]⟩

def c5Args : Args :=
  { baseArgs with
    rootChildren := [(LayerHierarchy.node (baseLayer 10) [], Variant.attached),
                     (LayerHierarchy.node (baseLayer 11) [], Variant.attached)]
    layers := [baseLayer 10, baseLayer 11]
    forceUpdate := true }

/-- C6 fixture: a parent with rounded corners strictly inside the node's
crop. -/
def c6Parent : LayerSnapshot :=
  { LayerSnapshot.mkDefault TraversalPath.root with
    roundedCorner := ⟨⟨10, 10, 90, 90⟩, 5, 5⟩ }

/-- C6 fixture: a node with its own rounded corners on a 0–100 crop. -/
def c6Snap : LayerSnapshot :=
  { LayerSnapshot.mkDefault ⟨some 7, Variant.attached, [], []⟩ with
    croppedBufferSize := ⟨0, 0, 100, 100⟩ }

def c6Requested : RequestedLayerState := { baseLayer 7 with cornerRadius := 3 }

/-- C8 fixture: a descriptor whose requested transform is singular. -/
def c8Requested : RequestedLayerState :=
  { baseLayer 8 with getTransform := fun _ => ⟨0, 0, 0, 0, 0, 0⟩ }

/-- C9 fixture: a clone occurrence whose touch-crop target and mirror root
are not in the store. -/
def c9Path : TraversalPath := ⟨some 9, Variant.mirror, [50], []⟩

def c9Requested : RequestedLayerState :=
  { baseLayer 9 with hasInputInfo := true, touchCropId := some 99 }

def c9Store : List LayerSnapshot :=
  [LayerSnapshot.mkDefault ⟨some 1, Variant.attached, [], []⟩]

/-- C10 fixture: one registered display of logical size 300×200. -/
def c10Args : Args :=
  { baseArgs with
    forceUpdate := true
    displays := [(0, { DisplayInfo.default with logicalWidth := 300, logicalHeight := 200 })] }

/-! ### Theorems -/

/-- C7: for the per-node update, the hidden-by-policy-from-parent flag is the
parent snapshot's flag OR the node's own policy-hidden flag, and a hidden
node's update writes only the accumulated change bitmask, the content-dirty
flag, the hidden flag and the visible flag (set to false), leaving every
other resolved field unchanged. -/
theorem c7_hidden_node_early_return (store : List LayerSnapshot) (args : Args)
    (snapshot : LayerSnapshot) (requested : RequestedLayerState)
    (parentSnapshot : LayerSnapshot) (path : TraversalPath)
    (hhide : (parentSnapshot.isHiddenByPolicyFromParent || requested.hiddenByPolicy) = true) :
    updateSnapshot store args snapshot requested parentSnapshot path =
      { snapshot with
        changes := (parentSnapshot.changes.and Changes.propagateMask).or requested.changes
        contentDirty := requested.whatContentDirty
        isHiddenByPolicyFromParent := true
        isVisible := false } := by
  simp only [updateSnapshot, hhide]
  simp

/-- C7 witness: a concrete hidden node, with the theorem's hypothesis
discharged by evaluation. -/
theorem c7_hidden_node_early_return_witness :
    updateSnapshot [] baseArgs (LayerSnapshot.mkDefault TraversalPath.root)
        { baseLayer 3 with hiddenByPolicy := true }
        (LayerSnapshot.mkDefault TraversalPath.root) TraversalPath.root =
      { LayerSnapshot.mkDefault TraversalPath.root with
        changes := ((LayerSnapshot.mkDefault TraversalPath.root).changes.and
          Changes.propagateMask).or { baseLayer 3 with hiddenByPolicy := true }.changes
        contentDirty := { baseLayer 3 with hiddenByPolicy := true }.whatContentDirty
        isHiddenByPolicyFromParent := true
        isVisible := false } :=
  c7_hidden_node_early_return [] baseArgs (LayerSnapshot.mkDefault TraversalPath.root)
    { baseLayer 3 with hiddenByPolicy := true }
    (LayerSnapshot.mkDefault TraversalPath.root) TraversalPath.root (by decide)

/-- C8: when the composed absolute transform (parent absolute ∘ local) is
invalid, it is reset to the identity before the inverse and the
screen-space bounds are computed, and the update is a total function (the
walk continues). -/
theorem c8_invalid_transform_reset (s : LayerSnapshot) (requested : RequestedLayerState)
    (parentSnapshot : LayerSnapshot) (displayRotationFlags : ℕ)
    (hinv : LayerSnapshot.isTransformValid
        (parentSnapshot.geomLayerTransform.comp
          (requested.getTransform displayRotationFlags)) = false) :
    (updateLayerBounds s requested parentSnapshot displayRotationFlags).invalidTransform = true ∧
    (updateLayerBounds s requested parentSnapshot displayRotationFlags).geomLayerTransform =
      Transform.ident ∧
    (updateLayerBounds s requested parentSnapshot displayRotationFlags).geomInverseLayerTransform =
      Transform.ident.inverse ∧
    (updateLayerBounds s requested parentSnapshot displayRotationFlags).transformedBounds =
      Transform.ident.transformFR
        (updateLayerBounds s requested parentSnapshot displayRotationFlags).geomLayerBounds := by
  simp only [updateLayerBounds, hinv]
  refine ⟨?_, ?_, ?_, ?_⟩ <;> split_ifs <;> simp_all

/-- C8 witness: a concrete singular requested transform. -/
theorem c8_invalid_transform_reset_witness :
    LayerSnapshot.isTransformValid
      ((LayerSnapshot.mkDefault TraversalPath.root).geomLayerTransform.comp
        (c8Requested.getTransform 0)) = false ∧
    (updateLayerBounds (LayerSnapshot.mkDefault TraversalPath.root) c8Requested
        (LayerSnapshot.mkDefault TraversalPath.root) 0).invalidTransform = true ∧
    (updateLayerBounds (LayerSnapshot.mkDefault TraversalPath.root) c8Requested
        (LayerSnapshot.mkDefault TraversalPath.root) 0).geomLayerTransform = Transform.ident := by
  refine ⟨rfl, ?_, ?_⟩
  · exact (c8_invalid_transform_reset (LayerSnapshot.mkDefault TraversalPath.root) c8Requested
      (LayerSnapshot.mkDefault TraversalPath.root) 0 rfl).1
  · exact (c8_invalid_transform_reset (LayerSnapshot.mkDefault TraversalPath.root) c8Requested
      (LayerSnapshot.mkDefault TraversalPath.root) 0 rfl).2.1

/-- Lookup in the empty store always fails. -/
theorem getSnapshotById_nil (layerId : Option ℕ) : getSnapshotById [] layerId = none := by
  cases layerId <;> rfl

/-- C9: when the configured touch-crop target and the mirror root have no
resolved snapshot in the store, the input update behaves exactly as with an
empty store: no crop or intersection derived from the missing targets is
applied, and the update is a total function (no failure). -/
theorem c9_dangling_crossref_ignored (store : List LayerSnapshot) (s : LayerSnapshot)
    (requested : RequestedLayerState) (parentSnapshot : LayerSnapshot)
    (displayInfo : DisplayInfo) (noValidDisplay : Bool) (path : TraversalPath)
    (hcrop : getSnapshotById store requested.touchCropId = none)
    (hmirror : getSnapshotById store path.mirrorRootIds.getLast? = none) :
    updateInput store s requested parentSnapshot displayInfo noValidDisplay path =
      updateInput [] s requested parentSnapshot displayInfo noValidDisplay path := by
  simp only [updateInput, applySecureDrop, applyTouchCrop, applyTrustedOverlay,
    applyCloneCrop, hcrop, hmirror, getSnapshotById_nil]

/-- C9 witness: a concrete clone occurrence with both cross-references
dangling. -/
theorem c9_dangling_crossref_ignored_witness :
    getSnapshotById c9Store c9Requested.touchCropId = none ∧
    getSnapshotById c9Store c9Path.mirrorRootIds.getLast? = none ∧
    updateInput c9Store (LayerSnapshot.mkDefault c9Path) c9Requested
        (LayerSnapshot.mkDefault TraversalPath.root) DisplayInfo.default false c9Path =
      updateInput [] (LayerSnapshot.mkDefault c9Path) c9Requested
        (LayerSnapshot.mkDefault TraversalPath.root) DisplayInfo.default false c9Path :=
  ⟨rfl, rfl,
    c9_dangling_crossref_ignored c9Store (LayerSnapshot.mkDefault c9Path) c9Requested
      (LayerSnapshot.mkDefault TraversalPath.root) DisplayInfo.default false c9Path
      rfl rfl⟩

/-- C2 counterexample: a node without pixel content whose parent transform
is non-trivial; the transform fed to input is the node's absolute
(composed) transform, not its local transform as the claim states. -/
theorem c2_input_transform_counterexample :
    c2Snap.hasBufferOrSidebandStream = false ∧
    getInputTransform c2Snap ≠ c2Snap.localTransform ∧
    getInputTransform c2Snap = c2Snap.geomLayerTransform := by
  refine ⟨rfl, ?_, rfl⟩
  decide

/-- C2 amended: the layer-to-screen transform composed with the display's
screen transform inside the input-frame computation is the parent's absolute
transform when the node has pixel content, and the node's own absolute
transform when it does not. -/
theorem c2_input_transform_choice (info : WindowInfo) (screenToDisplay : Transform)
    (s : LayerSnapshot) :
    getInputTransform s =
      (if s.hasBufferOrSidebandStream then s.parentTransform else s.geomLayerTransform) ∧
    ∃ ix iy : Q,
      (fillInputFrameInfo info screenToDisplay s).transform =
        ((screenToDisplay.comp (getInputTransform s)).comp (Transform.translate ix iy)).inverse := by
  constructor
  · simp only [getInputTransform]
    by_cases h : s.hasBufferOrSidebandStream = true <;> simp [h]
  · simp only [fillInputFrameInfo]
    exact ⟨_, _, rfl⟩

/-- C6: the rounded-corner tie-break — with both the node's own settings and
the reprojected parent state valid, the parent's state is taken exactly when
its corner rectangle is strictly inside the node's crop on all four edges,
else the node's own settings win; with exactly one side valid that side is
used; with neither, the snapshot has no rounded corners. -/
theorem c6_rounded_corner_selection (s : LayerSnapshot) (requested : RequestedLayerState)
    (parentSnapshot : LayerSnapshot) :
    (((layerRoundedSettings s requested).hasRoundedCorners &&
          !(s.croppedBufferSize.toFRect.isEmpty)) = true →
      (parentRoundedCornerOf s parentSnapshot).hasRoundedCorners = true →
      (updateRoundedCorner s requested parentSnapshot).roundedCorner =
        (if strictlyInside (parentRoundedCornerOf s parentSnapshot).cropRect
            s.croppedBufferSize.toFRect then parentRoundedCornerOf s parentSnapshot
         else layerRoundedSettings s requested)) ∧
    (((layerRoundedSettings s requested).hasRoundedCorners &&
          !(s.croppedBufferSize.toFRect.isEmpty)) = true →
      (parentRoundedCornerOf s parentSnapshot).hasRoundedCorners = false →
      (updateRoundedCorner s requested parentSnapshot).roundedCorner =
        layerRoundedSettings s requested) ∧
    (((layerRoundedSettings s requested).hasRoundedCorners &&
          !(s.croppedBufferSize.toFRect.isEmpty)) = false →
      (parentRoundedCornerOf s parentSnapshot).hasRoundedCorners = true →
      (updateRoundedCorner s requested parentSnapshot).roundedCorner =
        parentRoundedCornerOf s parentSnapshot) ∧
    (((layerRoundedSettings s requested).hasRoundedCorners &&
          !(s.croppedBufferSize.toFRect.isEmpty)) = false →
      (parentRoundedCornerOf s parentSnapshot).hasRoundedCorners = false →
      (updateRoundedCorner s requested parentSnapshot).roundedCorner =
        RoundedCornerState.default) := by
  refine ⟨?_, ?_, ?_, ?_⟩ <;> intro hl hp <;>
    simp only [updateRoundedCorner, hl, hp, strictlyInside] <;>
    simp [gt_iff_lt, and_assoc]


/-- C6 witness: a concrete parent corner rect strictly inside the node's
crop, with both hypotheses of the tie-break theorem discharged by
evaluation. -/
theorem c6_rounded_corner_selection_witness :
    ((layerRoundedSettings c6Snap c6Requested).hasRoundedCorners &&
        !(c6Snap.croppedBufferSize.toFRect.isEmpty)) = true ∧
    (parentRoundedCornerOf c6Snap c6Parent).hasRoundedCorners = true ∧
    (updateRoundedCorner c6Snap c6Requested c6Parent).roundedCorner =
      (if strictlyInside (parentRoundedCornerOf c6Snap c6Parent).cropRect
          c6Snap.croppedBufferSize.toFRect then parentRoundedCornerOf c6Snap c6Parent
       else layerRoundedSettings c6Snap c6Requested) :=
  ⟨rfl, rfl, (c6_rounded_corner_selection c6Snap c6Requested c6Parent).1 rfl rfl⟩

/-- Generic shape of the safe-translation loop: folding the checked
translation with region union over an accumulator is the accumulator
followed by the successful translations. -/
theorem foldl_checked_eq_filterMap (f : IRect → Option IRect) (l : List IRect)
    (acc : Region) :
    l.foldl (fun ret rect =>
        match f rect with
        | some newRect => ret.orSelf newRect
        | none => ret) acc = acc ++ l.filterMap f := by
  induction l generalizing acc with
  | nil => simp
  | cons r rs ih =>
    simp only [List.foldl_cons, List.filterMap_cons]
    cases h : f r with
    | none =>
      simp only [h]
      rw [ih]
    | some val =>
      simp only [h]
      rw [ih]
      simp [Region.orSelf]

/-- Characterisation of one checked translation. -/
theorem translateRectChecked_eq_some (tx ty : ℤ) (rect out : IRect) :
    translateRectChecked tx ty rect = some out ↔
      ((-(2 ^ 31) ≤ rect.left + tx ∧ rect.left + tx < 2 ^ 31) ∧
       (-(2 ^ 31) ≤ rect.top + ty ∧ rect.top + ty < 2 ^ 31) ∧
       (-(2 ^ 31) ≤ rect.right + tx ∧ rect.right + tx < 2 ^ 31) ∧
       (-(2 ^ 31) ≤ rect.bottom + ty ∧ rect.bottom + ty < 2 ^ 31)) ∧
      out = ⟨rect.left + tx, rect.top + ty, rect.right + tx, rect.bottom + ty⟩ := by
  simp only [translateRectChecked, addOverflow32]
  split_ifs with h1 h2 h3 h4 <;> simp_all [eq_comm]

/-- C4: for every transform and every touchable region, a rectangle is in
the output of the overflow-safe region transform exactly when it is the
translation, by the rounded offset, of a rectangle of the region transformed
without translation, all four of whose coordinate additions stay within the
32-bit range; rectangles with an overflowing addition are dropped, and the
transform is a total function (no error). -/
theorem c4_overflow_safe_region_transform (t : Transform) (r : Region) (out : IRect) :
    out ∈ transformTouchableRegionSafely t r ↔
      ∃ rect, rect ∈ Region.transformBy (t.setTranslate 0 0) r ∧
        ((-(2 ^ 31) ≤ rect.left + truncQ (t.tx + 1/2) ∧
            rect.left + truncQ (t.tx + 1/2) < 2 ^ 31) ∧
         (-(2 ^ 31) ≤ rect.top + truncQ (t.ty + 1/2) ∧
            rect.top + truncQ (t.ty + 1/2) < 2 ^ 31) ∧
         (-(2 ^ 31) ≤ rect.right + truncQ (t.tx + 1/2) ∧
            rect.right + truncQ (t.tx + 1/2) < 2 ^ 31) ∧
         (-(2 ^ 31) ≤ rect.bottom + truncQ (t.ty + 1/2) ∧
            rect.bottom + truncQ (t.ty + 1/2) < 2 ^ 31)) ∧
        out = ⟨rect.left + truncQ (t.tx + 1/2), rect.top + truncQ (t.ty + 1/2),
               rect.right + truncQ (t.tx + 1/2), rect.bottom + truncQ (t.ty + 1/2)⟩ := by
  simp only [transformTouchableRegionSafely, foldl_checked_eq_filterMap,
    List.nil_append, List.mem_filterMap, Region.empty, translateRectChecked_eq_some]


/-- C3 counterexample: effective mode OBSCURED with a non-opaque parent
alpha and invalid content bounds.  The claim's else-chain predicts only the
drop-input mark; the code does not stop after the alpha check and also
applies the drop-if-obscured mark. -/
theorem c3_drop_input_counterexample :
    c3Snap.inputInfo.inputConfig.noInputChannel = false ∧
    c3Snap.inputInfo.inputConfig.dropInput = false ∧
    c3Snap.inputInfo.inputConfig.dropInputIfObscured = false ∧
    c3Snap.dropInputMode = DropInputMode.obscured ∧
    c3Parent.colorA.beq 1 = false ∧
    c3Snap.croppedBufferSize.isValid = false ∧
    (handleDropInputMode c3Snap c3Parent).inputInfo.inputConfig.dropInput = true ∧
    (handleDropInputMode c3Snap c3Parent).inputInfo.inputConfig.dropInputIfObscured = true := by
  decide

theorem setDropInput_dropInputMode (s : LayerSnapshot) :
    s.setDropInput.dropInputMode = s.dropInputMode := rfl

theorem setDropInputIfObscured_dropInputMode (s : LayerSnapshot) :
    s.setDropInputIfObscured.dropInputMode = s.dropInputMode := rfl

/-- The drop-input policy resolution never changes the resolved mode. -/
theorem handleDropInputMode_dropInputMode (s parentSnapshot : LayerSnapshot) :
    (handleDropInputMode s parentSnapshot).dropInputMode = s.dropInputMode := by
  simp only [handleDropInputMode]
  split_ifs <;> rfl

/-- The mode cascade of `updateInput` is the most-restrictive combination. -/
theorem maxDropInputMode_eq_cascade (a b : DropInputMode) :
    maxDropInputMode a b =
      (if a = DropInputMode.all || b = DropInputMode.all then DropInputMode.all
       else if a = DropInputMode.obscured || b = DropInputMode.obscured then
         DropInputMode.obscured
       else DropInputMode.nonE) := by
  cases a <;> cases b <;> simp [maxDropInputMode]

theorem applySecureDrop_dropInputMode (displayInfo : DisplayInfo) (s : LayerSnapshot) :
    (applySecureDrop displayInfo s).dropInputMode = s.dropInputMode := by
  simp only [applySecureDrop]
  split_ifs <;> rfl

theorem applyTouchCrop_dropInputMode (store : List LayerSnapshot)
    (displayInfo : DisplayInfo) (requested : RequestedLayerState) (s : LayerSnapshot) :
    (applyTouchCrop store displayInfo requested s).dropInputMode = s.dropInputMode := by
  simp only [applyTouchCrop]
  cases getSnapshotById store requested.touchCropId <;> split_ifs <;> rfl

theorem applyTrustedOverlay_dropInputMode (s : LayerSnapshot) :
    (applyTrustedOverlay s).dropInputMode = s.dropInputMode := by
  simp only [applyTrustedOverlay]
  split_ifs <;> rfl

theorem applyCloneCrop_dropInputMode (store : List LayerSnapshot)
    (displayInfo : DisplayInfo) (path : TraversalPath) (s : LayerSnapshot) :
    (applyCloneCrop store displayInfo path s).dropInputMode = s.dropInputMode := by
  simp only [applyCloneCrop]
  cases getSnapshotById store path.mirrorRootIds.getLast? <;> split_ifs <;> rfl

/-- The resolved drop-input mode after `updateInput`. -/
theorem updateInput_dropInputMode (store : List LayerSnapshot) (s : LayerSnapshot)
    (requested : RequestedLayerState) (parentSnapshot : LayerSnapshot)
    (displayInfo : DisplayInfo) (noValidDisplay : Bool) (path : TraversalPath)
    (hin : requested.hasInputInfo = true) :
    (updateInput store s requested parentSnapshot displayInfo noValidDisplay
        path).dropInputMode =
      maxDropInputMode requested.dropInputMode parentSnapshot.dropInputMode := by
  rw [maxDropInputMode_eq_cascade]
  simp only [updateInput, hin, Bool.not_true, Bool.false_eq_true, if_false]
  rw [applyCloneCrop_dropInputMode, applyTrustedOverlay_dropInputMode,
    applyTouchCrop_dropInputMode, applySecureDrop_dropInputMode,
    handleDropInputMode_dropInputMode]
  simp only [apply_ite (fun x : LayerSnapshot => x.dropInputMode)]

/-- The two occlusion marks written by `handleDropInputMode`, characterised
without the else-chain: the alpha check does not suppress the later
obscured-path marks. -/
theorem handleDropInputMode_flags (s parentSnapshot : LayerSnapshot)
    (hchan : s.inputInfo.inputConfig.noInputChannel = false) :
    ((handleDropInputMode s parentSnapshot).inputInfo.inputConfig.dropInput = true ↔
      (s.inputInfo.inputConfig.dropInput = true ∨ s.dropInputMode = DropInputMode.all ∨
        (s.dropInputMode = DropInputMode.obscured ∧
          (parentSnapshot.colorA.beq 1 = false ∨
            (s.croppedBufferSize.isValid = true ∧ bufferCroppedByParent s = true))))) ∧
    ((handleDropInputMode s parentSnapshot).inputInfo.inputConfig.dropInputIfObscured = true ↔
      (s.inputInfo.inputConfig.dropInputIfObscured = true ∨
        (s.dropInputMode = DropInputMode.obscured ∧
          (s.croppedBufferSize.isValid = false ∨
            (s.croppedBufferSize.isValid = true ∧ bufferCroppedByParent s = false))))) := by
  simp only [handleDropInputMode, bufferCroppedByParent, hchan]
  cases hm : s.dropInputMode <;>
    split_ifs <;>
      simp_all [LayerSnapshot.setDropInput, LayerSnapshot.setDropInputIfObscured]

/-- C3 amended: for a node with an input channel, the resolved drop-input
mode is the most restrictive of the node's requested mode and the parent's
mode; under mode ALL the node is marked drop-input unconditionally; under
mode OBSCURED the drop-input mark is applied exactly when the parent's
resolved alpha is not fully opaque or the valid content bounds are cropped
by an ancestor, and the drop-if-obscured mark exactly when the content
bounds are invalid or valid-and-uncropped — the alpha check does not
suppress the subsequent marks, so both marks can be applied together. -/
theorem c3_drop_input_resolution :
    (∀ (store : List LayerSnapshot) (s : LayerSnapshot)
        (requested : RequestedLayerState) (parentSnapshot : LayerSnapshot)
        (displayInfo : DisplayInfo) (noValidDisplay : Bool) (path : TraversalPath),
      requested.hasInputInfo = true →
      (updateInput store s requested parentSnapshot displayInfo noValidDisplay
          path).dropInputMode =
        maxDropInputMode requested.dropInputMode parentSnapshot.dropInputMode) ∧
    (∀ s parentSnapshot : LayerSnapshot,
      s.inputInfo.inputConfig.noInputChannel = false →
      (((handleDropInputMode s parentSnapshot).inputInfo.inputConfig.dropInput = true ↔
        (s.inputInfo.inputConfig.dropInput = true ∨ s.dropInputMode = DropInputMode.all ∨
          (s.dropInputMode = DropInputMode.obscured ∧
            (parentSnapshot.colorA.beq 1 = false ∨
              (s.croppedBufferSize.isValid = true ∧ bufferCroppedByParent s = true))))) ∧
      ((handleDropInputMode s parentSnapshot).inputInfo.inputConfig.dropInputIfObscured = true ↔
        (s.inputInfo.inputConfig.dropInputIfObscured = true ∨
          (s.dropInputMode = DropInputMode.obscured ∧
            (s.croppedBufferSize.isValid = false ∨
              (s.croppedBufferSize.isValid = true ∧ bufferCroppedByParent s = false))))))) :=
  ⟨fun store s requested parentSnapshot displayInfo noValidDisplay path hin =>
      updateInput_dropInputMode store s requested parentSnapshot displayInfo
        noValidDisplay path hin,
    fun s parentSnapshot hchan => handleDropInputMode_flags s parentSnapshot hchan⟩

/-- C3 witness: the amended resolution evaluated at the concrete obscured
fixture. -/
theorem c3_drop_input_resolution_witness :
    ((updateInput [] c3Snap c3InputLayer c3Parent DisplayInfo.default false
        TraversalPath.root).dropInputMode =
      maxDropInputMode DropInputMode.obscured c3Parent.dropInputMode) ∧
    ((handleDropInputMode c3Snap c3Parent).inputInfo.inputConfig.dropInput = true ↔
      (c3Snap.inputInfo.inputConfig.dropInput = true ∨
        c3Snap.dropInputMode = DropInputMode.all ∨
        (c3Snap.dropInputMode = DropInputMode.obscured ∧
          (c3Parent.colorA.beq 1 = false ∨
            (c3Snap.croppedBufferSize.isValid = true ∧
              bufferCroppedByParent c3Snap = true))))) := by
  constructor
  · exact c3_drop_input_resolution.1 [] c3Snap c3InputLayer
      c3Parent DisplayInfo.default false TraversalPath.root rfl
  · exact (c3_drop_input_resolution.2 c3Snap c3Parent rfl).1


mutual

/-- The pre-order walk never writes the root snapshot. -/
theorem updateSnapshotsInHierarchy_rootSnapshot (args : Args) (h : LayerHierarchy)
    (path : TraversalPath) (parentSnapshot : LayerSnapshot) (b : Builder) :
    (updateSnapshotsInHierarchy args h path parentSnapshot b).rootSnapshot =
      b.rootSnapshot := by
  cases h with
  | node layer cs =>
    rw [updateSnapshotsInHierarchy]
    simp only [apply_ite (fun x : Builder => x.rootSnapshot)]
    rw [updateHierarchyChildren_rootSnapshot]
    simp [ite_self]
termination_by sizeOf h
decreasing_by all_goals simp_wf

/-- The child descent never writes the root snapshot. -/
theorem updateHierarchyChildren_rootSnapshot (args : Args)
    (cs : List (LayerHierarchy × Variant)) (path : TraversalPath)
    (parentSnapshot : LayerSnapshot) (b : Builder) :
    (updateHierarchyChildren args cs path parentSnapshot b).rootSnapshot =
      b.rootSnapshot := by
  cases cs with
  | nil => rw [updateHierarchyChildren]
  | cons c rest =>
    obtain ⟨child, variant⟩ := c
    rw [updateHierarchyChildren, updateHierarchyChildren_rootSnapshot,
      updateSnapshotsInHierarchy_rootSnapshot]
termination_by sizeOf cs
decreasing_by all_goals simp_wf <;> omega

end

/-- The z-order pass never writes the root snapshot. -/
theorem sortSnapshotsByZ_rootSnapshot (args : Args) (b : Builder) :
    (sortSnapshotsByZ args b).rootSnapshot = b.rootSnapshot := by
  simp only [sortSnapshotsByZ]
  split <;> rfl

/-- The accumulating pair fold of `getMaxDisplayBounds` splits into two
scalar max folds. -/
theorem foldl_max_pair (l : List (ℕ × DisplayInfo)) (a b : ℤ) :
    l.foldl (fun sz p => (max sz.1 p.2.logicalWidth, max sz.2 p.2.logicalHeight)) (a, b) =
      ((l.map (fun p => p.2.logicalWidth)).foldl max a,
       (l.map (fun p => p.2.logicalHeight)).foldl max b) := by
  induction l generalizing a b with
  | nil => rfl
  | cons x xs ih => simp [List.foldl_cons, ih]

/-- The max fold dominates its seed and every element. -/
theorem le_foldl_max (l : List ℤ) (a : ℤ) :
    a ≤ l.foldl max a ∧ ∀ x ∈ l, x ≤ l.foldl max a := by
  induction l generalizing a with
  | nil => simp
  | cons y ys ih =>
    refine ⟨le_trans (le_max_left a y) (ih (max a y)).1, ?_⟩
    intro x hx
    rcases List.mem_cons.mp hx with rfl | hx
    · exact le_trans (le_max_right a x) (ih (max a x)).1
    · exact (ih (max a y)).2 x hx

/-- The max fold is the seed or an element of the list. -/
theorem foldl_max_mem (l : List ℤ) (a : ℤ) :
    l.foldl max a = a ∨ l.foldl max a ∈ l := by
  induction l generalizing a with
  | nil => exact Or.inl rfl
  | cons y ys ih =>
    have hfold : List.foldl max a (y :: ys) = List.foldl max (max a y) ys := rfl
    rcases ih (max a y) with h | h
    · rcases max_choice a y with hm | hm
      · left
        rw [hfold, h]
        exact hm
      · right
        rw [hfold, h, hm]
        exact List.mem_cons_self y ys
    · right
      rw [hfold]
      exact List.mem_cons_of_mem _ h

/-- C10: the root snapshot's bounds after an update that is forced or saw a
display change equal `getMaxDisplayBounds`; that rectangle is
[-50000, 50000]² when the registry is empty, and (for the non-negative
logical sizes of real displays) [-10·W, 10·W] × [-10·H, 10·H] with W and H
the maxima of the registered logical widths and heights. -/
theorem c10_root_bounds (args : Args) (b : Builder)
    (hrun : args.forceUpdate = true ∨ args.displayChanges = true)
    (hnn : ∀ p ∈ args.displays, 0 ≤ p.2.logicalWidth ∧ 0 ≤ p.2.logicalHeight) :
    (updateSnapshots args b).rootSnapshot.geomLayerBounds =
      getMaxDisplayBounds args.displays ∧
    (args.displays = [] →
      getMaxDisplayBounds args.displays =
        ⟨Q.ofInt (-50000), Q.ofInt (-50000), Q.ofInt 50000, Q.ofInt 50000⟩) ∧
    (args.displays ≠ [] →
      ∃ W H : ℤ,
        W ∈ args.displays.map (fun p => p.2.logicalWidth) ∧
        (∀ w ∈ args.displays.map (fun p => p.2.logicalWidth), w ≤ W) ∧
        H ∈ args.displays.map (fun p => p.2.logicalHeight) ∧
        (∀ hh ∈ args.displays.map (fun p => p.2.logicalHeight), hh ≤ H) ∧
        getMaxDisplayBounds args.displays =
          ⟨-(Q.ofInt W * 10), -(Q.ofInt H * 10), Q.ofInt W * 10, Q.ofInt H * 10⟩) := by
  refine ⟨?_, ?_, ?_⟩
  · have h1 : (args.forceUpdate || args.displayChanges) = true := by
      rcases hrun with h | h <;> simp [h]
    simp only [updateSnapshots, h1, if_true]
    split <;>
      simp only [sortSnapshotsByZ_rootSnapshot, updateHierarchyChildren_rootSnapshot] <;>
      split <;> rfl
  · intro hempty
    rw [hempty]
    rfl
  · intro hne
    refine ⟨(args.displays.map (fun p => p.2.logicalWidth)).foldl max 0,
            (args.displays.map (fun p => p.2.logicalHeight)).foldl max 0,
            ?_, ?_, ?_, ?_, ?_⟩
    · rcases foldl_max_mem (args.displays.map (fun p => p.2.logicalWidth)) 0 with h | h
      · rcases List.exists_mem_of_ne_nil args.displays hne with ⟨p, hp⟩
        have hple := (le_foldl_max (args.displays.map (fun p => p.2.logicalWidth)) 0).2
          p.2.logicalWidth (List.mem_map_of_mem _ hp)
        have hge := (hnn p hp).1
        have : p.2.logicalWidth = 0 := le_antisymm (by rw [h] at hple; exact hple) hge
        rw [h, ← this]
        exact List.mem_map_of_mem _ hp
      · exact h
    · exact (le_foldl_max _ 0).2
    · rcases foldl_max_mem (args.displays.map (fun p => p.2.logicalHeight)) 0 with h | h
      · rcases List.exists_mem_of_ne_nil args.displays hne with ⟨p, hp⟩
        have hple := (le_foldl_max (args.displays.map (fun p => p.2.logicalHeight)) 0).2
          p.2.logicalHeight (List.mem_map_of_mem _ hp)
        have hge := (hnn p hp).2
        have : p.2.logicalHeight = 0 := le_antisymm (by rw [h] at hple; exact hple) hge
        rw [h, ← this]
        exact List.mem_map_of_mem _ hp
      · exact h
    · exact (le_foldl_max _ 0).2
    · simp only [getMaxDisplayBounds, List.isEmpty_iff]
      rw [if_neg hne, foldl_max_pair]

/-- C10 witness: a single 300×200 display with a forced update. -/
theorem c10_root_bounds_witness :
    (updateSnapshots c10Args Builder.init).rootSnapshot.geomLayerBounds =
      getMaxDisplayBounds c10Args.displays ∧
    getMaxDisplayBounds c10Args.displays =
      ⟨-(Q.ofInt 300 * 10), -(Q.ofInt 200 * 10), Q.ofInt 300 * 10, Q.ofInt 200 * 10⟩ := by
  constructor
  · exact (c10_root_bounds c10Args Builder.init (Or.inl rfl) (by decide)).1
  · rfl


/-- C5 counterexample: the first visited occurrence (id 10) is
policy-visible, so by the claim it should receive the next sequential index
0; the code gates assignment on the computed visible flag instead, assigns
index 0 to the second occurrence (id 11) and swaps it into slot 0, leaving
the policy-visible-but-not-computed-visible snapshot at slot 1. -/
theorem c5_zorder_counterexample :
    c5Builder.snapshots.map
        (fun s => (s.path.id, s.globalZ, s.isVisible, s.isHiddenByPolicy)) =
      [(some 10, 0, false, false), (some 11, 1, true, false)] ∧
    (sortSnapshotsByZ c5Args c5Builder).snapshots.map
        (fun s => (s.path.id, s.globalZ, s.isVisible)) =
      [(some 11, 0, true), (some 10, 1, false)] := by
  decide

/-- `sortSnapshotsByZ` when the skip condition holds. -/
theorem sortSnapshotsByZ_skip (args : Args) (b : Builder)
    (h : (!args.forceUpdate && !(args.globalChanges.anyOf Changes.visHierMask)) = true) :
    sortSnapshotsByZ args b = b := by
  simp [sortSnapshotsByZ, h]

/-- `sortSnapshotsByZ` when it runs: traversal followed by trailing
marking. -/
theorem sortSnapshotsByZ_run (args : Args) (b : Builder)
    (h : (!args.forceUpdate && !(args.globalChanges.anyOf Changes.visHierMask)) = false) :
    sortSnapshotsByZ args b = { b with snapshots :=
      (markTrailing
        (travZChildren args.rootChildren TraversalPath.root (b.snapshots, 0)).1
        (travZChildren args.rootChildren TraversalPath.root (b.snapshots, 0)).2) } := by
  simp [sortSnapshotsByZ, h]

/-- Slot contents after the trailing loop. -/
theorem markTrailing_getElem (l : List LayerSnapshot) (z j : ℕ) :
    (markTrailing l z)[j]? = (l[j]?).map
      (fun t => if z ≤ j then { t with globalZ := j, isVisible := false } else t) := by
  simp only [markTrailing]
  by_cases hj : j < l.length
  · have hj2 : j < (l.mapIdx fun i s =>
        if z ≤ i then { s with globalZ := i, isVisible := false } else s).length := by
      simpa using hj
    rw [List.getElem?_eq_getElem hj2, List.getElem?_eq_getElem hj]
    simp only [Option.map_some']
    congr 1
    have h3 := List.get_mapIdx l
      (fun i s => if z ≤ i then { s with globalZ := i, isVisible := false } else s) j hj
    simp only [List.get_eq_getElem] at h3
    exact h3
  · have h1 : (l.mapIdx fun i s =>
        if z ≤ i then { s with globalZ := i, isVisible := false } else s).length ≤ j := by
      simpa using Nat.le_of_not_lt hj
    rw [List.getElem?_eq_none h1, List.getElem?_eq_none (Nat.le_of_not_lt hj)]
    rfl

/-- A visited occurrence that is policy-hidden without a visibility change
is skipped: the state is unchanged, no index is consumed, the subtree is
pruned. -/
theorem zVisit_skip (snaps : List LayerSnapshot) (z : ℕ) (path : TraversalPath)
    (i : ℕ) (s : LayerSnapshot)
    (hfind : findSnapshotIdx snaps path = some i)
    (hget : snaps[i]? = some s)
    (hcond : (s.isHiddenByPolicy && !s.changes.visibility) = true) :
    zVisit snaps z path = (snaps, z, false) := by
  simp [zVisit, hfind, hget, hcond]

/-- A visited occurrence that is not skipped but whose computed visible flag
is false consumes no index. -/
theorem zVisit_invisible (snaps : List LayerSnapshot) (z : ℕ) (path : TraversalPath)
    (i : ℕ) (s : LayerSnapshot)
    (hfind : findSnapshotIdx snaps path = some i)
    (hget : snaps[i]? = some s)
    (hcond : (s.isHiddenByPolicy && !s.changes.visibility) = false)
    (hvis : s.isVisible = false) :
    zVisit snaps z path = (snaps, z, true) := by
  simp [zVisit, hfind, hget, hcond, hvis]

/-- A visited computed-visible occurrence is assigned the next sequential
index `z` and swapped into slot `z`, the displaced snapshot receiving the
vacated slot and index symmetrically; every other slot is untouched. -/
theorem zVisit_visible (snaps : List LayerSnapshot) (z : ℕ) (path : TraversalPath)
    (i : ℕ) (s : LayerSnapshot)
    (hfind : findSnapshotIdx snaps path = some i)
    (hget : snaps[i]? = some s)
    (hinv : ∀ k (hk : k < snaps.length), (snaps.get ⟨k, hk⟩).globalZ = k)
    (hz : z < snaps.length)
    (hcond : (s.isHiddenByPolicy && !s.changes.visibility) = false)
    (hvis : s.isVisible = true) :
    (zVisit snaps z path).2.1 = z + 1 ∧ (zVisit snaps z path).2.2 = true ∧
    (zVisit snaps z path).1[z]? = some { s with globalZ := z } ∧
    ((zVisit snaps z path).1[i]? =
      if i = z then some { s with globalZ := z }
      else (snaps[z]?).map (fun d => { d with globalZ := i })) ∧
    (∀ j, j ≠ i → j ≠ z → (zVisit snaps z path).1[j]? = snaps[j]?) := by
  have hlen : i < snaps.length := by
    rcases List.getElem?_eq_some.mp hget with ⟨h, _⟩
    exact h
  have hgetE : snaps[i] = s := by
    rcases List.getElem?_eq_some.mp hget with ⟨h, he⟩
    exact he
  have hgz : s.globalZ = i := by
    rw [← hgetE]
    exact hinv i hlen
  have hnc : ¬((s.isHiddenByPolicy && !s.changes.visibility) = true) := by
    simp [hcond]
  by_cases hiz : i = z
  · subst hiz
    have hres : zVisit snaps i path = (snaps.set i { s with globalZ := i }, i + 1, true) := by
      simp only [zVisit, hfind, hget, Option.getD_some]
      rw [if_neg hnc, if_pos hvis, hgz, if_pos rfl]
    rw [hres]
    refine ⟨rfl, rfl, ?_, ?_, ?_⟩
    · exact List.getElem?_set_eq_of_lt _ hlen
    · simp [List.getElem?_set_eq_of_lt _ hlen]
    · intro j hji _
      exact List.getElem?_set_ne (fun h => hji h.symm)
  · obtain ⟨d, hd⟩ : ∃ d, snaps[z]? = some d := ⟨snaps[z], List.getElem?_eq_getElem hz⟩
    have h1 : (snaps.set i { s with globalZ := z })[z]? = some d := by
      rw [List.getElem?_set_ne hiz, hd]
    have hres : zVisit snaps z path =
        (listSwap ((snaps.set i { s with globalZ := z }).set z { d with globalZ := i }) i z,
          z + 1, true) := by
      simp only [zVisit, hfind, hget, Option.getD_some]
      rw [if_neg hnc, if_pos hvis, hgz, if_neg hiz, h1, Option.getD_some]
    have hswapA : ((snaps.set i { s with globalZ := z }).set z { d with globalZ := i })[i]? =
        some { s with globalZ := z } := by
      rw [List.getElem?_set_ne (fun h => hiz h.symm),
        List.getElem?_set_eq_of_lt _ hlen]
    have hswapB : ((snaps.set i { s with globalZ := z }).set z { d with globalZ := i })[z]? =
        some { d with globalZ := i } := by
      rw [List.getElem?_set_eq_of_lt]
      simpa using hz
    have hfinal : listSwap ((snaps.set i { s with globalZ := z }).set z { d with globalZ := i })
          i z =
        ((((snaps.set i { s with globalZ := z }).set z { d with globalZ := i }).set i
            { d with globalZ := i }).set z { s with globalZ := z }) := by
      simp [listSwap, hswapA, hswapB]
    rw [hres, hfinal]
    have hlen2 : z < ((((snaps.set i { s with globalZ := z }).set z
        { d with globalZ := i }).set i { d with globalZ := i })).length := by
      simpa using hz
    have hleni : i < (((snaps.set i { s with globalZ := z }).set z
        { d with globalZ := i })).length := by
      simpa using hlen
    refine ⟨rfl, rfl, ?_, ?_, ?_⟩
    · exact List.getElem?_set_eq_of_lt _ hlen2
    · rw [if_neg hiz, List.getElem?_set_ne (fun h => hiz h.symm),
        List.getElem?_set_eq_of_lt _ hleni, hd]
      rfl
    · intro j hji hjz
      rw [List.getElem?_set_ne (fun h => hjz h.symm),
        List.getElem?_set_ne (fun h => hji h.symm),
        List.getElem?_set_ne (fun h => hjz h.symm),
        List.getElem?_set_ne (fun h => hji h.symm)]

/-- C5 amended: the z-order pass is skipped unless forced or the summary has
Hierarchy or Visibility changes; when it runs it applies the z-order
traversal and then marks every slot beyond the last assigned index
not-visible with its stored index equal to its position; per visited
occurrence, policy-hidden-without-visibility-change snapshots are skipped
(pruning) without consuming an index, snapshots whose computed visible flag
is false consume no index, and computed-visible snapshots are assigned the
next sequential index and swapped into that slot with both swapped
snapshots' stored indices updated symmetrically. -/
theorem c5_zorder_pass :
    (∀ (args : Args) (b : Builder),
      (!args.forceUpdate && !(args.globalChanges.anyOf Changes.visHierMask)) = true →
      sortSnapshotsByZ args b = b) ∧
    (∀ (args : Args) (b : Builder),
      (!args.forceUpdate && !(args.globalChanges.anyOf Changes.visHierMask)) = false →
      sortSnapshotsByZ args b = { b with snapshots :=
        (markTrailing
          (travZChildren args.rootChildren TraversalPath.root (b.snapshots, 0)).1
          (travZChildren args.rootChildren TraversalPath.root (b.snapshots, 0)).2) }) ∧
    (∀ (l : List LayerSnapshot) (z j : ℕ),
      (markTrailing l z)[j]? = (l[j]?).map
        (fun t => if z ≤ j then { t with globalZ := j, isVisible := false } else t)) ∧
    (∀ (snaps : List LayerSnapshot) (z : ℕ) (path : TraversalPath) (i : ℕ)
        (s : LayerSnapshot),
      findSnapshotIdx snaps path = some i → snaps[i]? = some s →
      (s.isHiddenByPolicy && !s.changes.visibility) = true →
      zVisit snaps z path = (snaps, z, false)) ∧
    (∀ (snaps : List LayerSnapshot) (z : ℕ) (path : TraversalPath) (i : ℕ)
        (s : LayerSnapshot),
      findSnapshotIdx snaps path = some i → snaps[i]? = some s →
      (s.isHiddenByPolicy && !s.changes.visibility) = false → s.isVisible = false →
      zVisit snaps z path = (snaps, z, true)) ∧
    (∀ (snaps : List LayerSnapshot) (z : ℕ) (path : TraversalPath) (i : ℕ)
        (s : LayerSnapshot),
      findSnapshotIdx snaps path = some i → snaps[i]? = some s →
      (∀ k (hk : k < snaps.length), (snaps.get ⟨k, hk⟩).globalZ = k) →
      z < snaps.length →
      (s.isHiddenByPolicy && !s.changes.visibility) = false → s.isVisible = true →
      ((zVisit snaps z path).2.1 = z + 1 ∧ (zVisit snaps z path).2.2 = true ∧
        (zVisit snaps z path).1[z]? = some { s with globalZ := z } ∧
        ((zVisit snaps z path).1[i]? =
          if i = z then some { s with globalZ := z }
          else (snaps[z]?).map (fun d => { d with globalZ := i })) ∧
        (∀ j, j ≠ i → j ≠ z → (zVisit snaps z path).1[j]? = snaps[j]?))) :=
  ⟨sortSnapshotsByZ_skip, sortSnapshotsByZ_run, markTrailing_getElem,
    fun snaps z path i s hf hg hc => zVisit_skip snaps z path i s hf hg hc,
    fun snaps z path i s hf hg hc hv => zVisit_invisible snaps z path i s hf hg hc hv,
    fun snaps z path i s hf hg hi hz hc hv =>
      zVisit_visible snaps z path i s hf hg hi hz hc hv⟩

/-- C5 witness: the amended pass evaluated on the concrete two-snapshot
fixture (the computed-visible snapshot at slot 1 is assigned index 0 and
swapped into slot 0). -/
theorem c5_zorder_pass_witness :
    ((zVisit c5Builder.snapshots 0 ⟨some 11, Variant.attached, [], []⟩).2.1 = 0 + 1 ∧
      (zVisit c5Builder.snapshots 0 ⟨some 11, Variant.attached, [], []⟩).2.2 = true ∧
      (zVisit c5Builder.snapshots 0 ⟨some 11, Variant.attached, [], []⟩).1[0]? =
        some { c5SnapB with globalZ := 0 } ∧
      ((zVisit c5Builder.snapshots 0 ⟨some 11, Variant.attached, [], []⟩).1[1]? =
        if (1 : ℕ) = 0 then some { c5SnapB with globalZ := 0 }
        else (c5Builder.snapshots[0]?).map (fun d => { d with globalZ := 1 })) ∧
      (∀ j, j ≠ 1 → j ≠ 0 →
        (zVisit c5Builder.snapshots 0 ⟨some 11, Variant.attached, [], []⟩).1[j]? =
          c5Builder.snapshots[j]?)) :=
  c5_zorder_pass.2.2.2.2.2 c5Builder.snapshots 0 ⟨some 11, Variant.attached, [], []⟩ 1
    c5SnapB (by decide) (by decide) (by decide) (by decide) (by decide) (by decide)


/-- C1 counterexample: a policy-hidden parent (id 1) with a child (id 2),
resolved by a forced construction update; the next frame only the child has
a Content change.  The content fast path recomputes the child against the
root snapshot, resetting its hidden-from-parent flag and making it visible,
while the full forced walk on the same input prunes the hidden parent's
subtree and keeps the child hidden — the fast path is not equivalent to the
forced walk, and the parent used is the root snapshot, not the snapshot
looked up by key prefix. -/
theorem c1_fast_path_counterexample :
    (tryFastUpdate c1Args1 c1Builder).isSome = true ∧
    ((tryFastUpdate c1Args1 c1Builder).getD Builder.init).snapshots.map
        (fun s => (s.path.id, s.isHiddenByPolicyFromParent, s.isVisible)) =
      [(some 1, true, false), (some 2, false, true)] ∧
    (updateSnapshots { c1Args1 with forceUpdate := true } c1Builder).snapshots.map
        (fun s => (s.path.id, s.isHiddenByPolicyFromParent, s.isVisible)) =
      [(some 1, true, false), (some 2, true, false)] := by
  decide


/-- Under a content-only (or empty) change bitmask, with no propagating
parent changes, a non-hidden parent, no forced update and no metadata
aggregation, the per-node update does not depend on the parent snapshot,
the store or the traversal path: its gates keep the parent-reading,
geometry and input blocks off. -/
theorem updateSnapshot_parent_store_independent
    (store1 store2 : List LayerSnapshot) (args : Args) (snapshot : LayerSnapshot)
    (requested : RequestedLayerState) (parent1 parent2 : LayerSnapshot)
    (path1 path2 : TraversalPath)
    (hforce : args.forceUpdate = false) (hmeta : args.includeMetadata = false)
    (hch : requested.changes = Changes.contentOnly ∨ requested.changes = Changes.none)
    (h1c : parent1.changes.and Changes.propagateMask = Changes.none)
    (h2c : parent2.changes.and Changes.propagateMask = Changes.none)
    (h1h : parent1.isHiddenByPolicyFromParent = false)
    (h2h : parent2.isHiddenByPolicyFromParent = false) :
    updateSnapshot store1 args snapshot requested parent1 path1 =
      updateSnapshot store2 args snapshot requested parent2 path2 := by
  have e1 : Changes.contentOnly.anyOf Changes.visCreatedMask = false := rfl
  have e2 : Changes.contentOnly.anyOf Changes.affectsChildrenMask = false := rfl
  have e3 : Changes.contentOnly.isEmpty = false := rfl
  have e4 : Changes.contentOnly.anyOf Changes.contentOnly = true := rfl
  have e5 : Changes.contentOnly.anyOf Changes.hierGeomMask = false := rfl
  have e6 : Changes.contentOnly.anyOf Changes.hierGeomInputMask = false := rfl
  have f1 : Changes.none.anyOf Changes.visCreatedMask = false := rfl
  have f2 : Changes.none.anyOf Changes.affectsChildrenMask = false := rfl
  have f3 : Changes.none.isEmpty = true := rfl
  have f4 : Changes.none.anyOf Changes.contentOnly = false := rfl
  have f5 : Changes.none.anyOf Changes.hierGeomMask = false := rfl
  have f6 : Changes.none.anyOf Changes.hierGeomInputMask = false := rfl
  have g1 : Changes.none.or Changes.contentOnly = Changes.contentOnly := rfl
  have g2 : Changes.none.or Changes.none = Changes.none := rfl
  rcases hch with hch | hch <;>
    simp only [updateSnapshot, h1c, h2c, h1h, h2h, hforce, hmeta, hch, g1, g2,
      apply_ite (fun x : LayerSnapshot => x.changes), ite_self,
      e1, e2, e3, e4, e5, e6, f1, f2, f3, f4, f5, f6, Bool.false_or, Bool.or_false,
      Bool.not_true, Bool.not_false, Bool.false_eq_true, Bool.true_eq_false, if_false,
      if_true, ite_true, ite_false]


/-- A hit in the content-layer lookup is a Content-changed descriptor of the
layer list. -/
theorem lookupContentLayer_mem (layers : List RequestedLayerState) (layerId : Option ℕ)
    (l : RequestedLayerState) (h : lookupContentLayer layers layerId = some l) :
    l ∈ layers ∧ l.changes.content = true := by
  cases layerId with
  | none => simp [lookupContentLayer] at h
  | some i =>
    have main : ∀ (fl : List RequestedLayerState) (acc : Option RequestedLayerState),
        (∀ x, acc = some x → x ∈ layers ∧ x.changes.content = true) →
        (∀ y ∈ fl, y ∈ layers ∧ y.changes.content = true) →
        ∀ x, fl.foldl (fun acc2 l2 => if l2.id = i then some l2 else acc2) acc = some x →
          x ∈ layers ∧ x.changes.content = true := by
      intro fl
      induction fl with
      | nil =>
        intro acc hacc _ x hx
        exact hacc x hx
      | cons y ys ih =>
        intro acc hacc hin x hx
        refine ih _ ?_ (fun z hz => hin z (List.mem_cons_of_mem _ hz)) x hx
        intro x2 hx2
        have hx3 : (if y.id = i then some y else acc) = some x2 := hx2
        by_cases hy : y.id = i
        · rw [if_pos hy] at hx3
          cases hx3
          exact hin y (List.mem_cons_self _ _)
        · rw [if_neg hy] at hx3
          exact hacc x2 hx3
    refine main (layers.filter (fun l2 => l2.changes.content)) none ?_ ?_ l ?_
    · intro x hx
      cases hx
    · intro y hy
      have h2 := List.mem_filter.mp hy
      exact ⟨h2.1, h2.2⟩
    · simpa [lookupContentLayer] using h

/-- A fast-path step on an out-of-range index is the identity. -/
theorem fastStep_oob (args : Args) (rootSnapshot : LayerSnapshot)
    (snaps : List LayerSnapshot) (i : ℕ) (hs : snaps[i]? = none) :
    fastStep args rootSnapshot snaps i = snaps := by
  simp only [fastStep, hs]

/-- A fast-path step on a slot whose layer has no Content-changed descriptor
just clears the slot's dirty state. -/
theorem fastStep_eq_none (args : Args) (rootSnapshot : LayerSnapshot)
    (snaps : List LayerSnapshot) (i : ℕ) (s : LayerSnapshot)
    (hs : snaps[i]? = some s)
    (hl : lookupContentLayer args.layers s.path.id = none) :
    fastStep args rootSnapshot snaps i = snaps.set i (clearDirty s) := by
  simp only [fastStep, hs,
    show lookupContentLayer args.layers (clearDirty s).path.id = none from hl]

/-- A fast-path step on a slot whose layer has a Content-changed descriptor
clears the slot and recomputes it against the root snapshot. -/
theorem fastStep_eq_some (args : Args) (rootSnapshot : LayerSnapshot)
    (snaps : List LayerSnapshot) (i : ℕ) (s : LayerSnapshot)
    (layer : RequestedLayerState) (hs : snaps[i]? = some s)
    (hl : lookupContentLayer args.layers s.path.id = some layer) :
    fastStep args rootSnapshot snaps i = (snaps.set i (clearDirty s)).set i
      (updateSnapshot (snaps.set i (clearDirty s)) args (clearDirty s) layer
        rootSnapshot TraversalPath.root) := by
  simp only [fastStep, hs,
    show lookupContentLayer args.layers (clearDirty s).path.id = some layer from hl]

/-- One fast-path step preserves the array length. -/
theorem fastStep_length (args : Args) (rootSnapshot : LayerSnapshot)
    (snaps : List LayerSnapshot) (i : ℕ) :
    (fastStep args rootSnapshot snaps i).length = snaps.length := by
  cases hs : snaps[i]? with
  | none => rw [fastStep_oob args rootSnapshot snaps i hs]
  | some s =>
    cases hl : lookupContentLayer args.layers s.path.id with
    | none =>
      rw [fastStep_eq_none args rootSnapshot snaps i s hs hl, List.length_set]
    | some layer =>
      rw [fastStep_eq_some args rootSnapshot snaps i s layer hs hl,
        List.length_set, List.length_set]

/-- The fast-path fold preserves the array length. -/
theorem fastFold_length (args : Args) (rootSnapshot : LayerSnapshot)
    (snaps : List LayerSnapshot) (ks : List ℕ) :
    (ks.foldl (fastStep args rootSnapshot) snaps).length = snaps.length := by
  induction ks generalizing snaps with
  | nil => rfl
  | cons k ks ih => rw [List.foldl_cons, ih, fastStep_length]

/-- The threaded fast-path fold acts pointwise: each visited slot is cleared,
and Content-changed slots are recomputed against the root snapshot with the
original store (the recomputation does not read the store under the
content-only hypotheses). -/
theorem fastFold_pointwise (args : Args) (b : Builder)
    (hforce : args.forceUpdate = false) (hmeta : args.includeMetadata = false)
    (hrootc : b.rootSnapshot.changes.and Changes.propagateMask = Changes.none)
    (hrooth : b.rootSnapshot.isHiddenByPolicyFromParent = false)
    (hlayers : ∀ l ∈ args.layers, l.changes.content = true →
      l.changes = Changes.contentOnly) :
    ∀ k, k ≤ b.snapshots.length → ∀ j : ℕ,
      ((List.range k).foldl (fastStep args b.rootSnapshot) b.snapshots)[j]? =
        (if j < k then
          (b.snapshots[j]?).map (fun s =>
            match lookupContentLayer args.layers s.path.id with
            | some layer => updateSnapshot b.snapshots args (clearDirty s) layer
                b.rootSnapshot TraversalPath.root
            | none => clearDirty s)
         else b.snapshots[j]?) := by
  intro k
  induction k with
  | zero =>
    intro _ j
    simp
  | succ k ih =>
    intro hk j
    have hk1 : k < b.snapshots.length := Nat.lt_of_succ_le hk
    have hkle : k ≤ b.snapshots.length := Nat.le_of_lt hk1
    rw [List.range_succ, List.foldl_append, List.foldl_cons, List.foldl_nil]
    set Pk := (List.range k).foldl (fastStep args b.rootSnapshot) b.snapshots with hPk
    have hPklen : Pk.length = b.snapshots.length :=
      fastFold_length args b.rootSnapshot b.snapshots (List.range k)
    obtain ⟨sk, hsk⟩ : ∃ sk, b.snapshots[k]? = some sk :=
      ⟨b.snapshots[k], List.getElem?_eq_getElem hk1⟩
    have hPksk : Pk[k]? = some sk := by
      rw [ih hkle k, if_neg (Nat.lt_irrefl k)]
      exact hsk
    cases hl : lookupContentLayer args.layers sk.path.id with
    | none =>
      rw [fastStep_eq_none args b.rootSnapshot Pk k sk hPksk hl]
      by_cases hjk : j = k
      · subst hjk
        have hjlen : j < Pk.length := by
          rw [hPklen]
          exact hk1
        rw [List.getElem?_set_eq_of_lt _ hjlen, if_pos (Nat.lt_succ_self j)]
        simp only [hsk, Option.map_some', hl]
      · rw [List.getElem?_set_ne (fun h => hjk h.symm), ih hkle j]
        have hiff : j < k + 1 ↔ j < k := by omega
        rw [if_congr hiff rfl rfl]
    | some layer =>
      have hmem := lookupContentLayer_mem args.layers sk.path.id layer hl
      have hcontent := hlayers layer hmem.1 hmem.2
      rw [fastStep_eq_some args b.rootSnapshot Pk k sk layer hPksk hl,
        updateSnapshot_parent_store_independent (Pk.set k (clearDirty sk)) b.snapshots
          args (clearDirty sk) layer b.rootSnapshot b.rootSnapshot TraversalPath.root
          TraversalPath.root hforce hmeta (Or.inl hcontent) hrootc hrootc hrooth hrooth]
      by_cases hjk : j = k
      · subst hjk
        have hjlen : j < (Pk.set j (clearDirty sk)).length := by
          rw [List.length_set, hPklen]
          exact hk1
        rw [List.getElem?_set_eq_of_lt _ hjlen, if_pos (Nat.lt_succ_self j)]
        simp only [hsk, Option.map_some', hl]
      · rw [List.getElem?_set_ne (fun h => hjk h.symm),
          List.getElem?_set_ne (fun h => hjk h.symm), ih hkle j]
        have hiff : j < k + 1 ↔ j < k := by omega
        rw [if_congr hiff rfl rfl]


/-- C1 (amended): when the global change summary is exactly Content and the
update is not forced — with metadata aggregation off, the root snapshot
unhidden and carrying no propagating change flags, and every Content-changed
descriptor carrying only the Content bit — `update` takes the content fast
path: the flat snapshot array is walked once with every slot's dirty state
cleared, each slot whose key's leaf descriptor id has a Content-changed
descriptor is recomputed by a single per-node update against the builder's
root snapshot (not the key-prefix parent), with no recursion into children;
that recomputation coincides with the one against the true resolved parent
whenever that parent is not policy-hidden and has no propagating change
flags. The original claim's key-prefix-parent wording and its equivalence
with a full forced walk fail when a Content-changed layer's parent is
policy-hidden; see the counterexample. -/
theorem c1_content_fast_path (args : Args) (b : Builder)
    (hforce : args.forceUpdate = false)
    (hglob : args.globalChanges = Changes.contentOnly)
    (hmeta : args.includeMetadata = false)
    (hrootc : b.rootSnapshot.changes.and Changes.propagateMask = Changes.none)
    (hrooth : b.rootSnapshot.isHiddenByPolicyFromParent = false)
    (hlayers : ∀ l ∈ args.layers, l.changes.content = true →
      l.changes = Changes.contentOnly) :
    ∃ b2, tryFastUpdate args b = some b2 ∧
      (∀ j : ℕ, b2.snapshots[j]? =
        (b.snapshots[j]?).map (fun s =>
          match lookupContentLayer args.layers s.path.id with
          | some layer => updateSnapshot b.snapshots args (clearDirty s) layer
              b.rootSnapshot TraversalPath.root
          | none => clearDirty s)) ∧
      (∀ (store : List LayerSnapshot) (s : LayerSnapshot) (layer : RequestedLayerState)
        (parent : LayerSnapshot) (path : TraversalPath),
        lookupContentLayer args.layers s.path.id = some layer →
        parent.changes.and Changes.propagateMask = Changes.none →
        parent.isHiddenByPolicyFromParent = false →
        updateSnapshot b.snapshots args (clearDirty s) layer b.rootSnapshot
          TraversalPath.root =
          updateSnapshot store args (clearDirty s) layer parent path) := by
  refine ⟨{ b with snapshots := ((List.range b.snapshots.length).foldl
      (fastStep args b.rootSnapshot) b.snapshots) }, ?_, ?_, ?_⟩
  · have h1 : Changes.contentOnly.isEmpty = false := rfl
    simp [tryFastUpdate, hforce, hglob, h1]
  · intro j
    by_cases hj : j < b.snapshots.length
    · have hpt := fastFold_pointwise args b hforce hmeta hrootc hrooth hlayers
        b.snapshots.length (le_refl _) j
      rw [if_pos hj] at hpt
      exact hpt
    · have hpt := fastFold_pointwise args b hforce hmeta hrootc hrooth hlayers
        b.snapshots.length (le_refl _) j
      rw [if_neg hj] at hpt
      rw [hpt, List.getElem?_eq_none (Nat.le_of_not_lt hj)]
      rfl
  · intro store s layer parent path hl hpc hph
    have hmem := lookupContentLayer_mem args.layers s.path.id layer hl
    have hcontent := hlayers layer hmem.1 hmem.2
    exact updateSnapshot_parent_store_independent b.snapshots store args (clearDirty s)
      layer b.rootSnapshot parent TraversalPath.root path hforce hmeta (Or.inl hcontent)
      hrootc hpc hrooth hph

/-- Witness: the content fast path theorem applied at the frame-1 fixture,
where only the child descriptor has a Content change. -/
theorem c1_content_fast_path_witness :
    ∃ b2, tryFastUpdate c1Args1 c1Builder = some b2 ∧
      (∀ j : ℕ, b2.snapshots[j]? =
        (c1Builder.snapshots[j]?).map (fun s =>
          match lookupContentLayer c1Args1.layers s.path.id with
          | some layer => updateSnapshot c1Builder.snapshots c1Args1 (clearDirty s) layer
              c1Builder.rootSnapshot TraversalPath.root
          | none => clearDirty s)) ∧
      (∀ (store : List LayerSnapshot) (s : LayerSnapshot) (layer : RequestedLayerState)
        (parent : LayerSnapshot) (path : TraversalPath),
        lookupContentLayer c1Args1.layers s.path.id = some layer →
        parent.changes.and Changes.propagateMask = Changes.none →
        parent.isHiddenByPolicyFromParent = false →
        updateSnapshot c1Builder.snapshots c1Args1 (clearDirty s) layer
          c1Builder.rootSnapshot TraversalPath.root =
          updateSnapshot store c1Args1 (clearDirty s) layer parent path) :=
  c1_content_fast_path c1Args1 c1Builder rfl rfl rfl (by decide) (by decide)
    (by
      intro l hl hc
      rcases List.mem_cons.mp hl with h | h
      · subst h
        exact absurd hc (by decide)
      · rcases List.mem_cons.mp h with h2 | h2
        · subst h2
          rfl
        · exact absurd h2 (List.not_mem_nil l))

end LSB
